import Mathlib

/-!
Verification development for the dbpp database access layer.

The C++ sources are shallowly embedded: each dbpp class becomes a Lean
structure, each member function a pure function from the old state (plus
the outcomes of the opaque native engine calls) to the new state and the
returned value.  Native engines (SQLite3, MariaDB client library) are
external collaborators; their calls are modelled by explicit oracle data
carried in the handle structures, with the branching of the dbpp wrapper
code reproduced verbatim from the source.
-/

namespace Dbpp

/-- Error codes of dbpp, from `include/dbpp/error.hpp` (`enum class ErrorCode`).
`kError` is the spec's GenericFailure, `kRange` its OutOfRange. -/
inductive ErrorCode where
  | kOk
  | kError
  | kNotOpen
  | kBusy
  | kNotFound
  | kConstraint
  | kMismatch
  | kMisuse
  | kRange
  | kNullParam
  | kIoError
  | kFull
deriving DecidableEq, Repr

/-- Maximum message buffer size of `dbpp::Error` (`kMaxMessageLen`). -/
def kMaxMessageLen : Nat := 256

/-- The `dbpp::Error` value: a code plus a bounded C-string message.
The message is modelled as the list of characters stored before the
terminating NUL of the 256-byte buffer. -/
structure Error where
  code : ErrorCode
  message : List Char
deriving DecidableEq, Repr

/-- Default-constructed `Error`: code `kOk`, empty message. -/
def Error.default : Error := ⟨ErrorCode.kOk, []⟩

/-- Model of `Error::Set(ErrorCode c, const char* msg)`.  A null `msg`
pointer is `none`.  `strncpy(message, msg, kMaxMessageLen - 1)` copies at
most 255 characters and the code then forces `message[255] = 0`, so the
stored C-string is `msg` truncated to 255 characters. -/
def Error.Set (_e : Error) (c : ErrorCode) (msg : Option (List Char)) : Error :=
  match msg with
  | some m => ⟨c, m.take (kMaxMessageLen - 1)⟩
  | none => ⟨c, []⟩

/-- Model of `Error::SetFormat(ErrorCode c, const char* fmt, ...)`.  The
varargs formatting itself is external; `fmtOut` is the fully formatted
text that `vsnprintf` would produce without truncation.  `vsnprintf` with
buffer size `kMaxMessageLen` stores at most 255 characters plus the
terminating NUL.  A null `fmt` pointer is `none` and stores the empty
string. -/
def Error.SetFormat (_e : Error) (c : ErrorCode) (fmtOut : Option (List Char)) : Error :=
  match fmtOut with
  | some m => ⟨c, m.take (kMaxMessageLen - 1)⟩
  | none => ⟨c, []⟩

/-- Model of `Error::ok()`. -/
def Error.ok (e : Error) : Bool := e.code = ErrorCode.kOk

/-- Model of `Error::Make(ErrorCode c, const char* msg)`. -/
def Error.Make (c : ErrorCode) (msg : Option (List Char)) : Error :=
  Error.Set Error.default c msg

/-- C10: for every call to `Error::Set` or `Error::SetFormat`, with any
code and any message/format argument including a null pointer, the stored
message fits in the fixed 256-byte buffer with its NUL terminator (at most
255 stored characters, longer inputs truncated to exactly the first 255),
a null argument yields the empty message, and the code field is set to the
given code. -/
theorem error_set_bounded (e : Error) (c : ErrorCode) (msg : Option (List Char)) :
    (Error.Set e c msg).code = c ∧
    (Error.Set e c msg).message.length ≤ kMaxMessageLen - 1 ∧
    (Error.Set e c msg).message =
      (match msg with
       | some m => m.take (kMaxMessageLen - 1)
       | none => []) ∧
    (Error.SetFormat e c msg).code = c ∧
    (Error.SetFormat e c msg).message.length ≤ kMaxMessageLen - 1 ∧
    (Error.SetFormat e c msg).message =
      (match msg with
       | some m => m.take (kMaxMessageLen - 1)
       | none => []) := by
  unfold Error.Set Error.SetFormat
  cases msg with
  | none => simp
  | some m =>
      refine ⟨rfl, ?_, rfl, rfl, ?_, rfl⟩ <;>
        exact List.length_take_le (kMaxMessageLen - 1) m

/-! ## SQLite3 native layer (opaque external engine, modelled) -/

/-- SQLite C API result codes referenced by the dbpp wrappers
(`sqlite3.h`). -/
def SQLITE_OK : Int := 0

/-- `SQLITE_ERROR` result code. -/
def SQLITE_ERROR : Int := 1

/-- `SQLITE_RANGE`: bind parameter index out of range. -/
def SQLITE_RANGE : Int := 25

/-- `SQLITE_ROW`: `sqlite3_step` produced a row. -/
def SQLITE_ROW : Int := 100

/-- `SQLITE_DONE`: `sqlite3_step` finished. -/
def SQLITE_DONE : Int := 101

/-- The single-quote character, built numerically. -/
def sq : Char := Char.ofNat 39

/-- A SQLite column value together with the engine's typed conversions:
`asInt`/`asInt64`/`asDouble`/`asText` model what `sqlite3_column_int`,
`sqlite3_column_int64`, `sqlite3_column_double` and `sqlite3_column_text`
return for this (non-NULL) cell; the real-valued double channel is
modelled by `Rat`.  A NULL cell is `none` at the row level. -/
structure SqliteValue where
  asInt : Int
  asInt64 : Int
  asDouble : Rat
  asText : Option (List Char)
deriving DecidableEq, Repr

/-- A value bound into a SQLite statement parameter slot by one of the
`sqlite3_bind_*` calls. -/
inductive SqliteBindVal where
  | intv (v : Int)
  | int64v (v : Int)
  | doublev (v : Rat)
  | textv (v : Option (List Char))
  | blobv (v : Option (List Char)) (len : Int)
  | nullv
deriving DecidableEq, Repr

/-- Model of a compiled `sqlite3_stmt*` handle: column names, the rows the
execution will deliver, the number of `SQLITE_ROW` steps taken so far
(`pos`), an oracle flag `fail` (the engine reports an error on the next
step), and the engine-side parameter binding slots (one per `?`
placeholder; `none` = never bound). -/
structure SqliteStmt where
  colNames : List (List Char)
  rows : List (List (Option SqliteValue))
  pos : Nat
  fail : Bool
  bindings : List (Option SqliteBindVal)
deriving DecidableEq, Repr

/-- Model of `sqlite3_step`: an error if the oracle says so, `SQLITE_ROW`
while rows remain, `SQLITE_DONE` afterwards. -/
def SqliteStmt.step (h : SqliteStmt) : Int × SqliteStmt :=
  if h.fail then (SQLITE_ERROR, h)
  else if h.pos < h.rows.length then (SQLITE_ROW, { h with pos := h.pos + 1 })
  else (SQLITE_DONE, h)

/-- Model of `sqlite3_reset`: rewinds the row iteration.  Per the SQLite
documentation, `sqlite3_reset` does NOT clear parameter bindings (that is
`sqlite3_clear_bindings`, which dbpp never calls): `bindings` is kept. -/
def SqliteStmt.reset (h : SqliteStmt) : SqliteStmt := { h with pos := 0 }

/-- `sqlite3_bind_parameter_count` for this handle. -/
def SqliteStmt.paramCount (h : SqliteStmt) : Int := h.bindings.length

/-- Model of the `sqlite3_bind_*` family: SQLite uses 1-based parameter
indices and returns `SQLITE_RANGE` (without touching any state) when the
index is outside `[1, paramCount]`; on success the slot is overwritten. -/
def SqliteStmt.bindAt (h : SqliteStmt) (param : Int) (v : SqliteBindVal) :
    Int × SqliteStmt :=
  if 1 ≤ param ∧ param ≤ h.paramCount then
    (SQLITE_OK, { h with bindings := h.bindings.set (param - 1).toNat (some v) })
  else (SQLITE_RANGE, h)

/-- The cell of the current row (the row delivered by the most recent
`SQLITE_ROW` step) at column `col`; `none` when the value is SQL NULL or
there is no current row / the column is out of range (SQLite reports such
reads as NULL-typed). -/
def SqliteStmt.cell (h : SqliteStmt) (col : Int) : Option SqliteValue :=
  if h.pos = 0 then none
  else
    match h.rows.get? (h.pos - 1) with
    | some r =>
        match r.get? col.toNat with
        | some c => c
        | none => none
    | none => none

/-- `sqlite3_column_int` on the current row (0 for NULL). -/
def SqliteStmt.column_int (h : SqliteStmt) (col : Int) : Int :=
  match h.cell col with
  | some v => v.asInt
  | none => 0

/-- `sqlite3_column_int64` on the current row (0 for NULL). -/
def SqliteStmt.column_int64 (h : SqliteStmt) (col : Int) : Int :=
  match h.cell col with
  | some v => v.asInt64
  | none => 0

/-- `sqlite3_column_double` on the current row (0 for NULL). -/
def SqliteStmt.column_double (h : SqliteStmt) (col : Int) : Rat :=
  match h.cell col with
  | some v => v.asDouble
  | none => 0

/-- `sqlite3_column_text` on the current row (null pointer for NULL). -/
def SqliteStmt.column_text (h : SqliteStmt) (col : Int) : Option (List Char) :=
  match h.cell col with
  | some v => v.asText
  | none => none

/-- Model of a `sqlite3*` connection handle: the engine's change counter
(`sqlite3_changes`) and current error message (`sqlite3_errmsg`). -/
structure SqliteDbHandle where
  changes : Int
  errmsg : List Char
deriving DecidableEq, Repr

/-! ## Sqlite3Query (`include/dbpp/sqlite3_query.hpp`) -/

/-- `dbpp::Sqlite3Query`: forward-only cursor owning an executing
statement handle, with the end-of-stream flag and the column count
snapshotted at construction. -/
structure Sqlite3Query where
  db : Option SqliteDbHandle
  stmt : Option SqliteStmt
  eof : Bool
  num_fields : Int
deriving DecidableEq, Repr

/-- The default-constructed (empty/invalid) `Sqlite3Query`. -/
def Sqlite3Query.empty : Sqlite3Query := ⟨none, none, true, 0⟩

/-- The private `Sqlite3Query(sqlite3* db, sqlite3_stmt* stmt, bool eof)`
constructor: snapshots `sqlite3_column_count` into `num_fields_`. -/
def Sqlite3Query.mkQ (db : Option SqliteDbHandle) (stmt : Option SqliteStmt)
    (eof : Bool) : Sqlite3Query :=
  ⟨db, stmt, eof,
   match stmt with
   | some h => (h.colNames.length : Int)
   | none => 0⟩

/-- `Sqlite3Query::NumFields`. -/
def Sqlite3Query.NumFields (q : Sqlite3Query) : Int := q.num_fields

/-- `Sqlite3Query::FieldIndex(const char* name)`: linear scan of the first
`num_fields_` column names; −1 if the statement or name is null or the
name does not occur. -/
def Sqlite3Query.FieldIndex (q : Sqlite3Query) (name : Option (List Char)) : Int :=
  match q.stmt, name with
  | some h, some nm =>
      match (List.range q.num_fields.toNat).find?
          (fun i => decide (h.colNames.get? i = some nm)) with
      | some i => (i : Int)
      | none => -1
  | _, _ => -1

/-- `Sqlite3Query::FieldIsNull(int32_t col)`: true when the statement is
null or `col` is out of `[0, num_fields)`, otherwise true iff the engine
reports the cell's type as `SQLITE_NULL`. -/
def Sqlite3Query.FieldIsNull (q : Sqlite3Query) (col : Int) : Bool :=
  match q.stmt with
  | none => true
  | some h =>
      if col < 0 ∨ q.num_fields ≤ col then true
      else decide (h.cell col = none)

/-- `Sqlite3Query::FieldValue(int32_t col)`. -/
def Sqlite3Query.FieldValue (q : Sqlite3Query) (col : Int) : Option (List Char) :=
  match q.stmt with
  | none => none
  | some h =>
      if col < 0 ∨ q.num_fields ≤ col then none
      else h.column_text col

/-- `Sqlite3Query::GetInt(int32_t col, int32_t null_value)`. -/
def Sqlite3Query.GetInt (q : Sqlite3Query) (col : Int) (null_value : Int) : Int :=
  if q.FieldIsNull col then null_value
  else
    match q.stmt with
    | some h => h.column_int col
    | none => 0

/-- `Sqlite3Query::GetInt(const char* name, int32_t null_value)`. -/
def Sqlite3Query.GetIntName (q : Sqlite3Query) (name : Option (List Char))
    (null_value : Int) : Int :=
  let idx := q.FieldIndex name
  if 0 ≤ idx then q.GetInt idx null_value else null_value

/-- `Sqlite3Query::GetInt64(int32_t col, int64_t null_value)`. -/
def Sqlite3Query.GetInt64 (q : Sqlite3Query) (col : Int) (null_value : Int) : Int :=
  if q.FieldIsNull col then null_value
  else
    match q.stmt with
    | some h => h.column_int64 col
    | none => 0

/-- `Sqlite3Query::GetDouble(int32_t col, double null_value)`. -/
def Sqlite3Query.GetDouble (q : Sqlite3Query) (col : Int) (null_value : Rat) : Rat :=
  if q.FieldIsNull col then null_value
  else
    match q.stmt with
    | some h => h.column_double col
    | none => 0

/-- `Sqlite3Query::GetDouble(const char* name, double null_value)`. -/
def Sqlite3Query.GetDoubleName (q : Sqlite3Query) (name : Option (List Char))
    (null_value : Rat) : Rat :=
  let idx := q.FieldIndex name
  if 0 ≤ idx then q.GetDouble idx null_value else null_value

/-- `Sqlite3Query::GetString(int32_t col, const char* null_value)`. -/
def Sqlite3Query.GetString (q : Sqlite3Query) (col : Int)
    (null_value : List Char) : List Char :=
  if q.FieldIsNull col then null_value
  else
    match q.FieldValue col with
    | some val => val
    | none => null_value

/-- `Sqlite3Query::GetString(const char* name, const char* null_value)`. -/
def Sqlite3Query.GetStringName (q : Sqlite3Query) (name : Option (List Char))
    (null_value : List Char) : List Char :=
  let idx := q.FieldIndex name
  if 0 ≤ idx then q.GetString idx null_value else null_value

/-- `Sqlite3Query::Eof`. -/
def Sqlite3Query.Eof (q : Sqlite3Query) : Bool := q.eof

/-- `Sqlite3Query::NextRow`: steps the native cursor; any result other
than `SQLITE_ROW` (completion or error) sets the end-of-stream flag. -/
def Sqlite3Query.NextRow (q : Sqlite3Query) : Sqlite3Query :=
  match q.stmt with
  | none => q
  | some h =>
      let r := h.step
      if r.1 = SQLITE_ROW then { q with stmt := some r.2 }
      else { q with stmt := some r.2, eof := true }

/-- `Sqlite3Query::Finalize`: releases the handle, forces end-of-stream,
zeroes the column count. -/
def Sqlite3Query.Finalize (q : Sqlite3Query) : Sqlite3Query :=
  ⟨q.db, none, true, 0⟩

/-- `Sqlite3Query` move construction: the destination takes every field,
the source is left null/eof/zero. -/
def Sqlite3Query.moveConstruct (other : Sqlite3Query) :
    Sqlite3Query × Sqlite3Query :=
  (⟨other.db, other.stmt, other.eof, other.num_fields⟩,
   ⟨none, none, true, 0⟩)

/-! ## Sqlite3Statement (`include/dbpp/sqlite3_statement.hpp`) -/

/-- `dbpp::Sqlite3Statement`: owns the connection pointer and one compiled
statement handle (or none). -/
structure Sqlite3Statement where
  db : Option SqliteDbHandle
  stmt : Option SqliteStmt
deriving DecidableEq, Repr

/-- `Sqlite3Statement::Valid`. -/
def Sqlite3Statement.Valid (s : Sqlite3Statement) : Bool := s.stmt.isSome

/-- Message used by the statement wrappers for a null handle. -/
def msgStmtNotInit : List Char := ("Statement not initialized").toList

/-- `Sqlite3Statement::ExecDml`: one step; on `SQLITE_DONE` returns
`sqlite3_changes` and resets the statement (keeping the handle), else
resets, reports `kError`, returns −1.  (The model's `sqlite3_reset`
always succeeds, so the reset-failure sub-branch never fires.) -/
def Sqlite3Statement.ExecDml (s : Sqlite3Statement) :
    Int × Error × Sqlite3Statement :=
  match s.db, s.stmt with
  | some dbh, some h =>
      let r := h.step
      if r.1 = SQLITE_DONE then
        (dbh.changes, Error.default, { s with stmt := some r.2.reset })
      else
        (-1, Error.Make ErrorCode.kError (some dbh.errmsg),
         { s with stmt := some r.2.reset })
  | _, _ => (-1, Error.Make ErrorCode.kMisuse (some msgStmtNotInit), s)

/-- `Sqlite3Statement::ExecQuery`: one step; on `SQLITE_DONE`/`SQLITE_ROW`
builds the cursor from the handle and nulls `stmt_` (ownership
transferred); on error resets and keeps the handle, returning the empty
cursor. -/
def Sqlite3Statement.ExecQuery (s : Sqlite3Statement) :
    Sqlite3Query × Error × Sqlite3Statement :=
  match s.db, s.stmt with
  | some dbh, some h =>
      let r := h.step
      if r.1 = SQLITE_DONE then
        (Sqlite3Query.mkQ (some dbh) (some r.2) true, Error.default,
         { s with stmt := none })
      else if r.1 = SQLITE_ROW then
        (Sqlite3Query.mkQ (some dbh) (some r.2) false, Error.default,
         { s with stmt := none })
      else
        (Sqlite3Query.empty, Error.Make ErrorCode.kError (some dbh.errmsg),
         { s with stmt := some r.2.reset })
  | _, _ => (Sqlite3Query.empty, Error.Make ErrorCode.kMisuse (some msgStmtNotInit), s)

/-- `Error::Ok()`. -/
def Error.Ok : Error := Error.default

/-- `Sqlite3Statement::Bind(int32_t param, int32_t value)`: forwards to
`sqlite3_bind_int`; any native failure (including `SQLITE_RANGE`) is
reported as `kError`. -/
def Sqlite3Statement.BindInt (s : Sqlite3Statement) (param : Int) (value : Int) :
    Error × Sqlite3Statement :=
  match s.stmt with
  | none => (Error.Make ErrorCode.kMisuse (some msgStmtNotInit), s)
  | some h =>
      let r := h.bindAt param (SqliteBindVal.intv value)
      if r.1 ≠ SQLITE_OK then
        (Error.Make ErrorCode.kError (some (("bind int failed").toList)),
         { s with stmt := some r.2 })
      else (Error.Ok, { s with stmt := some r.2 })

/-- `Sqlite3Statement::Bind(int32_t param, int64_t value)`. -/
def Sqlite3Statement.BindInt64 (s : Sqlite3Statement) (param : Int) (value : Int) :
    Error × Sqlite3Statement :=
  match s.stmt with
  | none => (Error.Make ErrorCode.kMisuse (some msgStmtNotInit), s)
  | some h =>
      let r := h.bindAt param (SqliteBindVal.int64v value)
      if r.1 ≠ SQLITE_OK then
        (Error.Make ErrorCode.kError (some (("bind int64 failed").toList)),
         { s with stmt := some r.2 })
      else (Error.Ok, { s with stmt := some r.2 })

/-- `Sqlite3Statement::Bind(int32_t param, double value)`. -/
def Sqlite3Statement.BindDouble (s : Sqlite3Statement) (param : Int) (value : Rat) :
    Error × Sqlite3Statement :=
  match s.stmt with
  | none => (Error.Make ErrorCode.kMisuse (some msgStmtNotInit), s)
  | some h =>
      let r := h.bindAt param (SqliteBindVal.doublev value)
      if r.1 ≠ SQLITE_OK then
        (Error.Make ErrorCode.kError (some (("bind double failed").toList)),
         { s with stmt := some r.2 })
      else (Error.Ok, { s with stmt := some r.2 })

/-- `Sqlite3Statement::Bind(int32_t param, const char* value)`. -/
def Sqlite3Statement.BindText (s : Sqlite3Statement) (param : Int)
    (value : Option (List Char)) : Error × Sqlite3Statement :=
  match s.stmt with
  | none => (Error.Make ErrorCode.kMisuse (some msgStmtNotInit), s)
  | some h =>
      let r := h.bindAt param (SqliteBindVal.textv value)
      if r.1 ≠ SQLITE_OK then
        (Error.Make ErrorCode.kError (some (("bind text failed").toList)),
         { s with stmt := some r.2 })
      else (Error.Ok, { s with stmt := some r.2 })

/-- `Sqlite3Statement::Bind(int32_t param, const uint8_t* blob, int32_t len)`. -/
def Sqlite3Statement.BindBlob (s : Sqlite3Statement) (param : Int)
    (blob : Option (List Char)) (len : Int) : Error × Sqlite3Statement :=
  match s.stmt with
  | none => (Error.Make ErrorCode.kMisuse (some msgStmtNotInit), s)
  | some h =>
      let r := h.bindAt param (SqliteBindVal.blobv blob len)
      if r.1 ≠ SQLITE_OK then
        (Error.Make ErrorCode.kError (some (("bind blob failed").toList)),
         { s with stmt := some r.2 })
      else (Error.Ok, { s with stmt := some r.2 })

/-- `Sqlite3Statement::BindNull(int32_t param)`. -/
def Sqlite3Statement.BindNull (s : Sqlite3Statement) (param : Int) :
    Error × Sqlite3Statement :=
  match s.stmt with
  | none => (Error.Make ErrorCode.kMisuse (some msgStmtNotInit), s)
  | some h =>
      let r := h.bindAt param SqliteBindVal.nullv
      if r.1 ≠ SQLITE_OK then
        (Error.Make ErrorCode.kError (some (("bind null failed").toList)),
         { s with stmt := some r.2 })
      else (Error.Ok, { s with stmt := some r.2 })

/-- `Sqlite3Statement::Reset`: calls `sqlite3_reset` (kept handle).  The
model's reset succeeds, so the error branch never fires. -/
def Sqlite3Statement.Reset (s : Sqlite3Statement) : Error × Sqlite3Statement :=
  match s.stmt with
  | none => (Error.Make ErrorCode.kMisuse (some msgStmtNotInit), s)
  | some h => (Error.Ok, { s with stmt := some h.reset })

/-- `Sqlite3Statement::Finalize`. -/
def Sqlite3Statement.Finalize (s : Sqlite3Statement) : Sqlite3Statement :=
  { s with stmt := none }

/-- `Sqlite3Statement` move construction: destination takes `db_` and
`stmt_`, source is nulled. -/
def Sqlite3Statement.moveConstruct (other : Sqlite3Statement) :
    Sqlite3Statement × Sqlite3Statement :=
  (⟨other.db, other.stmt⟩, ⟨none, none⟩)

/-! ## Sqlite3ResultSet (`include/dbpp/sqlite3_result_set.hpp`) -/

/-- `dbpp::Sqlite3ResultSet`: wraps a `sqlite3_get_table` block — a flat
cell array whose first `num_cols` entries are the column names and whose
remaining entries are the row-major cell values (`none` = SQL NULL) —
plus the row/column counts and the current-row cursor. -/
structure Sqlite3ResultSet where
  results : Option (List (Option (List Char)))
  num_rows : Nat
  num_cols : Int
  current_row : Nat
deriving DecidableEq, Repr

/-- The default-constructed (empty) `Sqlite3ResultSet`. -/
def Sqlite3ResultSet.empty : Sqlite3ResultSet := ⟨none, 0, 0, 0⟩

/-- `Sqlite3ResultSet::NumFields`. -/
def Sqlite3ResultSet.NumFields (rs : Sqlite3ResultSet) : Int := rs.num_cols

/-- `Sqlite3ResultSet::NumRows`. -/
def Sqlite3ResultSet.NumRows (rs : Sqlite3ResultSet) : Nat := rs.num_rows

/-- `Sqlite3ResultSet::RealIndex`: index of `(current_row, col)` in the
flat `sqlite3_get_table` layout. -/
def Sqlite3ResultSet.RealIndex (rs : Sqlite3ResultSet) (col : Int) : Int :=
  (rs.current_row : Int) * rs.num_cols + rs.num_cols + col

/-- `Sqlite3ResultSet::FieldName(int32_t col)`. -/
def Sqlite3ResultSet.FieldName (rs : Sqlite3ResultSet) (col : Int) :
    Option (List Char) :=
  match rs.results with
  | none => none
  | some tbl =>
      if col < 0 ∨ rs.num_cols ≤ col then none
      else
        match tbl.get? col.toNat with
        | some c => c
        | none => none

/-- `Sqlite3ResultSet::FieldValue(int32_t col)`: reads the flat table at
`RealIndex` (reads past the allocated block — possible when the cursor
sits at or past `num_rows` — are modelled as `none`). -/
def Sqlite3ResultSet.FieldValue (rs : Sqlite3ResultSet) (col : Int) :
    Option (List Char) :=
  match rs.results with
  | none => none
  | some tbl =>
      if col < 0 ∨ rs.num_cols ≤ col then none
      else
        if rs.RealIndex col < 0 then none
        else
          match tbl.get? (rs.RealIndex col).toNat with
          | some c => c
          | none => none

/-- `Sqlite3ResultSet::FieldIsNull(int32_t col)`. -/
def Sqlite3ResultSet.FieldIsNull (rs : Sqlite3ResultSet) (col : Int) : Bool :=
  match rs.results with
  | none => true
  | some tbl =>
      if col < 0 ∨ rs.num_cols ≤ col then true
      else
        if rs.RealIndex col < 0 then true
        else
          match tbl.get? (rs.RealIndex col).toNat with
          | some c => decide (c = none)
          | none => true

/-- `Sqlite3ResultSet::Eof`. -/
def Sqlite3ResultSet.Eof (rs : Sqlite3ResultSet) : Bool :=
  rs.num_rows ≤ rs.current_row

/-- `Sqlite3ResultSet::NextRow`. -/
def Sqlite3ResultSet.NextRow (rs : Sqlite3ResultSet) : Sqlite3ResultSet :=
  if rs.current_row < rs.num_rows then { rs with current_row := rs.current_row + 1 }
  else rs

/-- `Sqlite3ResultSet::SeekRow(uint32_t row)`: clamps to the last row when
`row ≥ num_rows` and the set is non-empty; otherwise (including the empty
set) simply stores `row` as the current row. -/
def Sqlite3ResultSet.SeekRow (rs : Sqlite3ResultSet) (row : Nat) : Sqlite3ResultSet :=
  if rs.num_rows ≤ row ∧ 0 < rs.num_rows then
    { rs with current_row := rs.num_rows - 1 }
  else { rs with current_row := row }

/-- `Sqlite3ResultSet::CurrentRow`. -/
def Sqlite3ResultSet.CurrentRow (rs : Sqlite3ResultSet) : Nat := rs.current_row

/-- `Sqlite3ResultSet` move construction. -/
def Sqlite3ResultSet.moveConstruct (other : Sqlite3ResultSet) :
    Sqlite3ResultSet × Sqlite3ResultSet :=
  (⟨other.results, other.num_rows, other.num_cols, other.current_row⟩,
   ⟨none, 0, 0, 0⟩)

/-! ## Sqlite3Db (`include/dbpp/sqlite3_db.hpp`), the parts the claims use -/

/-- `Sqlite3Db::ExecQuery(const char* sql)`: null-connection and null-sql
guards, compilation (the external `sqlite3_prepare_v2` outcome is the
`compiled` argument, `none` = prepare failed), then one step: `SQLITE_ROW`
gives a cursor positioned on the first row, `SQLITE_DONE` a cursor already
at end-of-stream, anything else an error and the empty cursor. -/
def Sqlite3Db.ExecQueryM (db : Option SqliteDbHandle) (sql : Option (List Char))
    (compiled : Option SqliteStmt) : Sqlite3Query × Error :=
  match db with
  | none => (Sqlite3Query.empty,
             Error.Make ErrorCode.kNotOpen (some (("Database not open").toList)))
  | some dbh =>
      match sql with
      | none => (Sqlite3Query.empty,
                 Error.Make ErrorCode.kNullParam (some (("sql is null").toList)))
      | some _ =>
          match compiled with
          | none => (Sqlite3Query.empty, Error.Make ErrorCode.kError (some dbh.errmsg))
          | some h =>
              let r := h.step
              if r.1 = SQLITE_DONE then
                (Sqlite3Query.mkQ (some dbh) (some r.2) true, Error.default)
              else if r.1 = SQLITE_ROW then
                (Sqlite3Query.mkQ (some dbh) (some r.2) false, Error.default)
              else
                (Sqlite3Query.empty, Error.Make ErrorCode.kError (some dbh.errmsg))

/-- The SQL text `Sqlite3Db::TableExists` builds with `snprintf` into its
256-byte buffer: the table name is inserted verbatim by `%s` formatting
(truncated so at most 255 characters are stored in total). -/
def Sqlite3Db.tableExistsSql (table : List Char) : List Char :=
  (("SELECT count(*) FROM sqlite_master WHERE type=").toList
    ++ [sq] ++ ("table").toList ++ [sq]
    ++ (" AND name=").toList ++ [sq] ++ table ++ [sq]).take 255

/-- `Sqlite3Db::TableExists(const char* table)`: false for a closed
connection or null name, otherwise `ExecScalar(sql) > 0` where the engine
outcome of the scalar query is the oracle `execScalar`. -/
def Sqlite3Db.TableExists (isOpen : Bool) (table : Option (List Char))
    (execScalar : List Char → Int) : Bool :=
  match table with
  | none => false
  | some t =>
      if isOpen then decide (0 < execScalar (Sqlite3Db.tableExistsSql t))
      else false

/-! ## libc numeric conversions used by MariaQuery

`strtol`/`strtoll`/`strtod` are external libc collaborators; they are
modelled on the plain decimal forms the database delivers (optional
leading spaces, optional sign, digits, and for `strtod` an optional
fractional part; the exponent form is not needed by any claim and no
claim depends on these functions' outputs). -/

/-- Accumulate leading decimal digits, stopping at the first non-digit. -/
def parseDigitsAcc : List Char → Int → Int
  | [], acc => acc
  | c :: rest, acc =>
      if c.isDigit then parseDigitsAcc rest (acc * 10 + ((c.toNat : Int) - 48))
      else acc

/-- Model of `std::strtol(s, nullptr, 10)` (and `strtoll`). -/
def strtolM (s : List Char) : Int :=
  let s1 := s.dropWhile (fun c => c = ' ')
  match s1 with
  | '-' :: rest => - parseDigitsAcc rest 0
  | '+' :: rest => parseDigitsAcc rest 0
  | _ => parseDigitsAcc s1 0

/-- Model of `std::strtod` on decimal text, with `Rat` for the real value. -/
def strtodM (s : List Char) : Rat :=
  let s1 := s.dropWhile (fun c => c = ' ')
  let signAndRest : Rat × List Char :=
    match s1 with
    | '-' :: rest => (-1, rest)
    | '+' :: rest => (1, rest)
    | _ => (1, s1)
  let s2 := signAndRest.2
  let ipart : Int := parseDigitsAcc (s2.takeWhile Char.isDigit) 0
  let rest := s2.dropWhile Char.isDigit
  let fpart : Rat :=
    match rest with
    | '.' :: r2 =>
        let fd := r2.takeWhile Char.isDigit
        ((parseDigitsAcc fd 0 : Int) : Rat) / ((10 : Rat) ^ fd.length)
    | _ => 0
  signAndRest.1 * ((ipart : Rat) + fpart)

/-! ## MariaDB native layer (opaque external engine, modelled) -/

/-- A `MYSQL_BIND` descriptor as the dbpp code writes it: `cleared` is the
`memset`-zeroed state; `text`/`blob` reference caller memory; the
`i32ref`/`i64ref`/`f64ref` states reference slot `slot` of the statement's
owned `int_storage_`/`int64_storage_`/`double_storage_` arrays
(bound-by-address). -/
inductive MariaBind where
  | cleared
  | text (v : Option (List Char))
  | blob (v : Option (List Char)) (len : Int)
  | nullv
  | i32ref (slot : Nat)
  | i64ref (slot : Nat)
  | f64ref (slot : Nat)
deriving DecidableEq, Repr

/-- Model of a prepared `MYSQL_STMT*` handle: the declared parameter count
plus the oracle outcomes of the native calls the dbpp wrappers make
(`mysql_stmt_bind_param`, `mysql_stmt_execute`,
`mysql_stmt_result_metadata` null-ness, `mysql_stmt_store_result`,
`mysql_stmt_reset`), the affected-row count and the engine error text. -/
structure MariaStmtHandle where
  param_count : Nat
  bind_ok : Bool
  exec_ok : Bool
  affected : Int
  has_meta : Bool
  store_ok : Bool
  reset_ok : Bool
  errmsg : List Char
deriving DecidableEq, Repr

/-- Model of a stored `MYSQL_RES*` result: column names, the materialized
rows (`none` cells = SQL NULL), and the engine-internal row cursor that
`mysql_fetch_row` advances and `mysql_data_seek` repositions. -/
structure MariaRes where
  names : List (List Char)
  rows : List (List (Option (List Char)))
  epos : Nat
deriving DecidableEq, Repr

/-- `mysql_fetch_row`: the row at the internal cursor (null at the end),
advancing the cursor. -/
def MariaRes.fetch (r : MariaRes) :
    Option (List (Option (List Char))) × MariaRes :=
  match r.rows.get? r.epos with
  | some row => (some row, { r with epos := r.epos + 1 })
  | none => (none, r)

/-! ## MariaQuery (`include/dbpp/maria_query.hpp`) -/

/-- `dbpp::MariaQuery`: forward cursor over a stored result; `row` is the
currently fetched row (`none` = null `MYSQL_ROW`), `lengths` whether the
`mysql_fetch_lengths` pointer is set, `fieldsArr` the `MYSQL_FIELD*`
snapshot. -/
structure MariaQuery where
  res : Option MariaRes
  row : Option (List (Option (List Char)))
  lengths : Bool
  fieldsArr : Option (List (List Char))
  eof : Bool
  num_fields : Int
  num_rows : Nat
deriving DecidableEq, Repr

/-- The default-constructed (empty/invalid) `MariaQuery`. -/
def MariaQuery.empty : MariaQuery := ⟨none, none, false, none, true, 0, 0⟩

/-- The private `MariaQuery(MYSQL_RES* res, bool eof)` constructor:
snapshots field/row counts and, unless starting at end-of-stream, fetches
the first row (a failed first fetch forces end-of-stream). -/
def MariaQuery.construct (res : Option MariaRes) (eof : Bool) : MariaQuery :=
  match res with
  | none => ⟨none, none, false, none, eof, 0, 0⟩
  | some r =>
      let nf : Int := r.names.length
      let nr := r.rows.length
      if eof then ⟨some r, none, false, some r.names, true, nf, nr⟩
      else
        let f := r.fetch
        match f.1 with
        | some row => ⟨some f.2, some row, true, some r.names, false, nf, nr⟩
        | none => ⟨some f.2, none, false, some r.names, true, nf, nr⟩

/-- `MariaQuery::NumFields`. -/
def MariaQuery.NumFields (q : MariaQuery) : Int := q.num_fields

/-- `MariaQuery::FieldIndex(const char* name)`. -/
def MariaQuery.FieldIndex (q : MariaQuery) (name : Option (List Char)) : Int :=
  match q.fieldsArr, name with
  | some names, some nm =>
      match (List.range q.num_fields.toNat).find?
          (fun i => decide (names.get? i = some nm)) with
      | some i => (i : Int)
      | none => -1
  | _, _ => -1

/-- The cell `row_[col]` of the current row (`none` when there is no
current row, the column is out of range, or the cell is SQL NULL). -/
def MariaQuery.cellAt (q : MariaQuery) (col : Int) : Option (List Char) :=
  match q.row with
  | none => none
  | some row =>
      if col < 0 then none
      else
        match row.get? col.toNat with
        | some c => c
        | none => none

/-- `MariaQuery::FieldValue(int32_t col)`. -/
def MariaQuery.FieldValue (q : MariaQuery) (col : Int) : Option (List Char) :=
  match q.row with
  | none => none
  | some _ =>
      if col < 0 ∨ q.num_fields ≤ col then none
      else q.cellAt col

/-- `MariaQuery::FieldIsNull(int32_t col)`. -/
def MariaQuery.FieldIsNull (q : MariaQuery) (col : Int) : Bool :=
  match q.row with
  | none => true
  | some _ =>
      if col < 0 ∨ q.num_fields ≤ col then true
      else decide (q.cellAt col = none)

/-- `MariaQuery::GetInt(int32_t col, int32_t null_value)`: `strtol` of the
text cell. -/
def MariaQuery.GetInt (q : MariaQuery) (col : Int) (null_value : Int) : Int :=
  if q.FieldIsNull col then null_value
  else
    match q.cellAt col with
    | some v => strtolM v
    | none => 0

/-- `MariaQuery::GetInt(const char* name, int32_t null_value)`. -/
def MariaQuery.GetIntName (q : MariaQuery) (name : Option (List Char))
    (null_value : Int) : Int :=
  let idx := q.FieldIndex name
  if 0 ≤ idx then q.GetInt idx null_value else null_value

/-- `MariaQuery::GetInt64(int32_t col, int64_t null_value)`. -/
def MariaQuery.GetInt64 (q : MariaQuery) (col : Int) (null_value : Int) : Int :=
  if q.FieldIsNull col then null_value
  else
    match q.cellAt col with
    | some v => strtolM v
    | none => 0

/-- `MariaQuery::GetDouble(int32_t col, double null_value)`. -/
def MariaQuery.GetDouble (q : MariaQuery) (col : Int) (null_value : Rat) : Rat :=
  if q.FieldIsNull col then null_value
  else
    match q.cellAt col with
    | some v => strtodM v
    | none => 0

/-- `MariaQuery::GetDouble(const char* name, double null_value)`. -/
def MariaQuery.GetDoubleName (q : MariaQuery) (name : Option (List Char))
    (null_value : Rat) : Rat :=
  let idx := q.FieldIndex name
  if 0 ≤ idx then q.GetDouble idx null_value else null_value

/-- `MariaQuery::GetString(int32_t col, const char* null_value)`. -/
def MariaQuery.GetString (q : MariaQuery) (col : Int)
    (null_value : List Char) : List Char :=
  if q.FieldIsNull col then null_value
  else
    match q.cellAt col with
    | some v => v
    | none => null_value

/-- `MariaQuery::GetString(const char* name, const char* null_value)`. -/
def MariaQuery.GetStringName (q : MariaQuery) (name : Option (List Char))
    (null_value : List Char) : List Char :=
  let idx := q.FieldIndex name
  if 0 ≤ idx then q.GetString idx null_value else null_value

/-- `MariaQuery::Eof`. -/
def MariaQuery.Eof (q : MariaQuery) : Bool := q.eof

/-- `MariaQuery::NextRow`: fetches the next row; a null fetch (end or
engine error) sets end-of-stream. -/
def MariaQuery.NextRow (q : MariaQuery) : MariaQuery :=
  match q.res with
  | none => q
  | some r =>
      let f := r.fetch
      match f.1 with
      | some row => { q with res := some f.2, row := some row, lengths := true }
      | none => { q with res := some f.2, row := none, lengths := false, eof := true }

/-! ## MariaResultSet (`include/dbpp/maria_result_set.hpp`) -/

/-- `dbpp::MariaResultSet`: random-access view over a stored result. -/
structure MariaResultSet where
  res : Option MariaRes
  row : Option (List (Option (List Char)))
  fieldsArr : Option (List (List Char))
  num_rows : Nat
  num_cols : Int
  current_row : Nat
deriving DecidableEq, Repr

/-- The default-constructed (empty) `MariaResultSet`. -/
def MariaResultSet.emptyRS : MariaResultSet := ⟨none, none, none, 0, 0, 0⟩

/-- The private `MariaResultSet(MYSQL_RES* res)` constructor: snapshots
counts and fields and fetches the first row when the set is non-empty. -/
def MariaResultSet.construct (res : Option MariaRes) : MariaResultSet :=
  match res with
  | none => ⟨none, none, none, 0, 0, 0⟩
  | some r =>
      if 0 < r.rows.length then
        let f := r.fetch
        ⟨some f.2, f.1, some r.names, r.rows.length, (r.names.length : Int), 0⟩
      else ⟨some r, none, some r.names, 0, (r.names.length : Int), 0⟩

/-- `MariaResultSet::NumRows`. -/
def MariaResultSet.NumRows (rs : MariaResultSet) : Nat := rs.num_rows

/-- `MariaResultSet::Eof`. -/
def MariaResultSet.Eof (rs : MariaResultSet) : Bool :=
  rs.num_rows ≤ rs.current_row

/-- `MariaResultSet::NextRow`: advances the current-row counter and
fetches the next engine row while rows remain. -/
def MariaResultSet.NextRow (rs : MariaResultSet) : MariaResultSet :=
  match rs.res with
  | none => rs
  | some r =>
      if rs.num_rows ≤ rs.current_row then rs
      else
        let cr := rs.current_row + 1
        if cr < rs.num_rows then
          let f := r.fetch
          { rs with res := some f.2, row := f.1, current_row := cr }
        else { rs with row := none, current_row := cr }

/-- `MariaResultSet::SeekRow(uint32_t row)`: a no-op when there is no
result or the set is empty; otherwise clamps the target to the last row,
repositions the engine cursor with `mysql_data_seek` and fetches. -/
def MariaResultSet.SeekRow (rs : MariaResultSet) (row : Nat) : MariaResultSet :=
  match rs.res with
  | none => rs
  | some r =>
      if rs.num_rows = 0 then rs
      else
        let target := if rs.num_rows ≤ row then rs.num_rows - 1 else row
        let f := MariaRes.fetch { r with epos := target }
        { rs with res := some f.2, row := f.1, current_row := target }

/-- `MariaResultSet::CurrentRow`. -/
def MariaResultSet.CurrentRow (rs : MariaResultSet) : Nat := rs.current_row

/-- `MariaResultSet::FieldValue(int32_t col)`. -/
def MariaResultSet.FieldValue (rs : MariaResultSet) (col : Int) :
    Option (List Char) :=
  match rs.row with
  | none => none
  | some row =>
      if col < 0 ∨ rs.num_cols ≤ col then none
      else
        match row.get? col.toNat with
        | some c => c
        | none => none

/-! ## MariaStatement (`src/unnamed/part_000`, `maria_statement.hpp`) -/

/-- `dbpp::MariaStatement`: the connection pointer, the prepared handle,
the heap-allocated `MYSQL_BIND` array and the three owned typed storage
arrays (one cell per parameter slot), plus the parameter count. -/
structure MariaStatement where
  conn : Option Unit
  stmt : Option MariaStmtHandle
  binds : Option (List MariaBind)
  int_storage : Option (List Int)
  int64_storage : Option (List Int)
  double_storage : Option (List Rat)
  num_params : Int
deriving DecidableEq, Repr

/-- The private `MariaStatement(MYSQL* conn, MYSQL_STMT* stmt)`
constructor: reads `mysql_stmt_param_count` and, when positive, allocates
the zeroed bind array and the three zero-initialized storage arrays. -/
def MariaStatement.construct (conn : Option Unit)
    (stmt : Option MariaStmtHandle) : MariaStatement :=
  match stmt with
  | none => ⟨conn, none, none, none, none, none, 0⟩
  | some h =>
      let n := h.param_count
      if 0 < n then
        ⟨conn, some h, some (List.replicate n MariaBind.cleared),
         some (List.replicate n 0), some (List.replicate n 0),
         some (List.replicate n 0), (n : Int)⟩
      else ⟨conn, some h, none, none, none, none, (n : Int)⟩

/-- `MariaStatement::Valid`. -/
def MariaStatement.Valid (s : MariaStatement) : Bool := s.stmt.isSome

/-- `MariaStatement` move construction: the initializer list transfers
`conn_`, `stmt_`, `binds_` and `num_params_` and nulls them in the source;
the three typed storage arrays are NOT mentioned, so the destination's
stay default-null while the source keeps (and will later delete) its
own. -/
def MariaStatement.moveConstruct (other : MariaStatement) :
    MariaStatement × MariaStatement :=
  (⟨other.conn, other.stmt, other.binds, none, none, none, other.num_params⟩,
   ⟨none, none, none, other.int_storage, other.int64_storage,
    other.double_storage, 0⟩)

/-- `MariaStatement::ValidParam(int32_t idx)` (0-based index check). -/
def MariaStatement.ValidParam (s : MariaStatement) (idx : Int) : Bool :=
  s.stmt.isSome && s.binds.isSome && decide (0 ≤ idx) && decide (idx < s.num_params)

/-- `memset(&binds_[idx], 0, sizeof(MYSQL_BIND))`. -/
def MariaStatement.memsetBind (s : MariaStatement) (idx : Nat) : MariaStatement :=
  { s with binds := s.binds.map (fun a => a.set idx MariaBind.cleared) }

/-- `MariaStatement::StoreInt32`: writes the owned storage cell and points
the bind descriptor at it.  (In C++ the storage write is an unchecked
`int_storage_[idx] = value`: a null-pointer dereference when the array is
absent, e.g. on a moved-to statement; the model's `Option.map` makes that
write a no-op instead.) -/
def MariaStatement.StoreInt32 (s : MariaStatement) (idx : Nat) (value : Int) :
    MariaStatement :=
  { s with int_storage := s.int_storage.map (fun a => a.set idx value),
           binds := s.binds.map (fun a => a.set idx (MariaBind.i32ref idx)) }

/-- `MariaStatement::StoreInt64`. -/
def MariaStatement.StoreInt64 (s : MariaStatement) (idx : Nat) (value : Int) :
    MariaStatement :=
  { s with int64_storage := s.int64_storage.map (fun a => a.set idx value),
           binds := s.binds.map (fun a => a.set idx (MariaBind.i64ref idx)) }

/-- `MariaStatement::StoreDouble`. -/
def MariaStatement.StoreDouble (s : MariaStatement) (idx : Nat) (value : Rat) :
    MariaStatement :=
  { s with double_storage := s.double_storage.map (fun a => a.set idx value),
           binds := s.binds.map (fun a => a.set idx (MariaBind.f64ref idx)) }

/-- Error message of the MariaDB out-of-range bind. -/
def msgParamOutOfRange : List Char := ("param out of range").toList

/-- `MariaStatement::Bind(int32_t param, int32_t value)`: converts the
1-based position, validates, zeroes the descriptor and stores. -/
def MariaStatement.BindInt (s : MariaStatement) (param : Int) (value : Int) :
    Error × MariaStatement :=
  let idx := param - 1
  if ¬ s.ValidParam idx then
    (Error.Make ErrorCode.kRange (some msgParamOutOfRange), s)
  else (Error.Ok, (s.memsetBind idx.toNat).StoreInt32 idx.toNat value)

/-- `MariaStatement::Bind(int32_t param, int64_t value)`. -/
def MariaStatement.BindInt64 (s : MariaStatement) (param : Int) (value : Int) :
    Error × MariaStatement :=
  let idx := param - 1
  if ¬ s.ValidParam idx then
    (Error.Make ErrorCode.kRange (some msgParamOutOfRange), s)
  else (Error.Ok, (s.memsetBind idx.toNat).StoreInt64 idx.toNat value)

/-- `MariaStatement::Bind(int32_t param, double value)`. -/
def MariaStatement.BindDouble (s : MariaStatement) (param : Int) (value : Rat) :
    Error × MariaStatement :=
  let idx := param - 1
  if ¬ s.ValidParam idx then
    (Error.Make ErrorCode.kRange (some msgParamOutOfRange), s)
  else (Error.Ok, (s.memsetBind idx.toNat).StoreDouble idx.toNat value)

/-- `MariaStatement::Bind(int32_t param, const char* value)`. -/
def MariaStatement.BindText (s : MariaStatement) (param : Int)
    (value : Option (List Char)) : Error × MariaStatement :=
  let idx := param - 1
  if ¬ s.ValidParam idx then
    (Error.Make ErrorCode.kRange (some msgParamOutOfRange), s)
  else
    (Error.Ok,
     { s with binds := s.binds.map (fun a => a.set idx.toNat (MariaBind.text value)) })

/-- `MariaStatement::Bind(int32_t param, const uint8_t* blob, int32_t len)`. -/
def MariaStatement.BindBlob (s : MariaStatement) (param : Int)
    (blob : Option (List Char)) (len : Int) : Error × MariaStatement :=
  let idx := param - 1
  if ¬ s.ValidParam idx then
    (Error.Make ErrorCode.kRange (some msgParamOutOfRange), s)
  else
    (Error.Ok,
     { s with binds := s.binds.map (fun a => a.set idx.toNat (MariaBind.blob blob len)) })

/-- `MariaStatement::BindNull(int32_t param)`. -/
def MariaStatement.BindNull (s : MariaStatement) (param : Int) :
    Error × MariaStatement :=
  let idx := param - 1
  if ¬ s.ValidParam idx then
    (Error.Make ErrorCode.kRange (some msgParamOutOfRange), s)
  else
    (Error.Ok,
     { s with binds := s.binds.map (fun a => a.set idx.toNat MariaBind.nullv) })

/-- `MariaStatement::ExecDml`: binds pending parameters, executes, returns
`mysql_stmt_affected_rows`; the statement keeps its handle in every
branch. -/
def MariaStatement.ExecDml (s : MariaStatement) : Int × Error × MariaStatement :=
  match s.stmt with
  | none => (-1, Error.Make ErrorCode.kMisuse (some msgStmtNotInit), s)
  | some h =>
      if 0 < s.num_params ∧ s.binds.isSome ∧ ¬ h.bind_ok then
        (-1, Error.Make ErrorCode.kError (some h.errmsg), s)
      else if ¬ h.exec_ok then
        (-1, Error.Make ErrorCode.kError (some h.errmsg), s)
      else (h.affected, Error.default, s)

/-- `MariaStatement::ExecQuery`: binds and executes; if the execution
succeeds and result metadata exists and the result is stored, the
implementation deliberately stops (prepared SELECT not implemented
end-to-end), reporting `kError` and returning the empty cursor; the
statement keeps its handle in every branch — ownership never moves. -/
def MariaStatement.ExecQuery (s : MariaStatement) :
    MariaQuery × Error × MariaStatement :=
  match s.stmt, s.conn with
  | some h, some _ =>
      if 0 < s.num_params ∧ s.binds.isSome ∧ ¬ h.bind_ok then
        (MariaQuery.empty, Error.Make ErrorCode.kError (some h.errmsg), s)
      else if ¬ h.exec_ok then
        (MariaQuery.empty, Error.Make ErrorCode.kError (some h.errmsg), s)
      else if ¬ h.has_meta then
        (MariaQuery.empty,
         Error.Make ErrorCode.kError (some (("No result metadata").toList)), s)
      else if ¬ h.store_ok then
        (MariaQuery.empty, Error.Make ErrorCode.kError (some h.errmsg), s)
      else
        (MariaQuery.empty,
         Error.Make ErrorCode.kError
           (some (("Prepared SELECT not yet supported, use Db::ExecQuery").toList)),
         s)
  | _, _ => (MariaQuery.empty, Error.Make ErrorCode.kMisuse (some msgStmtNotInit), s)

/-- `MariaStatement::Reset`: `mysql_stmt_reset`, then `memset` of the
whole bind array; the compiled handle and the typed storage cells are
kept. -/
def MariaStatement.Reset (s : MariaStatement) : Error × MariaStatement :=
  match s.stmt with
  | none => (Error.Make ErrorCode.kMisuse (some msgStmtNotInit), s)
  | some h =>
      if ¬ h.reset_ok then (Error.Make ErrorCode.kError (some h.errmsg), s)
      else
        (Error.Ok,
         { s with binds := s.binds.map (fun a => List.replicate a.length MariaBind.cleared) })

/-- `MariaStatement::Finalize`. -/
def MariaStatement.FinalizeS (s : MariaStatement) : MariaStatement :=
  ⟨s.conn, none, none, none, none, none, 0⟩

/-! ## MariaDb (`src/unnamed/part_002`), the parts the claims use -/

/-- `MariaDb::ExecQuery(const char* sql)`: null-connection/null-sql
guards, `mysql_query` (oracle `queryOk`), `mysql_store_result` (oracle
`storeResult`, with `fieldCount` distinguishing a failed SELECT from a
non-SELECT when it is null); a stored result builds a cursor whose
end-of-stream flag is `num_rows == 0`. -/
def MariaDb.ExecQueryM (conn : Option Unit) (sql : Option (List Char))
    (queryOk : Bool) (storeResult : Option MariaRes) (fieldCount : Nat)
    (errmsg : List Char) : MariaQuery × Error :=
  match conn with
  | none => (MariaQuery.empty,
             Error.Make ErrorCode.kNotOpen (some (("Database not open").toList)))
  | some _ =>
      match sql with
      | none => (MariaQuery.empty,
                 Error.Make ErrorCode.kNullParam (some (("sql is null").toList)))
      | some _ =>
          if ¬ queryOk then
            (MariaQuery.empty, Error.Make ErrorCode.kError (some errmsg))
          else
            match storeResult with
            | none =>
                (MariaQuery.empty,
                 if 0 < fieldCount then Error.Make ErrorCode.kError (some errmsg)
                 else Error.default)
            | some res =>
                (MariaQuery.construct (some res) (decide (res.rows.length = 0)),
                 Error.default)

/-- The SQL text `MariaDb::TableExists` builds with `snprintf` into its
256-byte buffer: the table name is inserted verbatim by `%s` formatting
(truncated so at most 255 characters are stored in total). -/
def MariaDb.tableExistsSql (table : List Char) : List Char :=
  (("SELECT COUNT(*) FROM information_schema.tables WHERE table_schema = DATABASE() AND table_name = ").toList
    ++ [sq] ++ table ++ [sq]).take 255

/-- `MariaDb::TableExists(const char* table)`. -/
def MariaDb.TableExists (isOpen : Bool) (table : Option (List Char))
    (execScalar : List Char → Int) : Bool :=
  match table with
  | none => false
  | some t =>
      if isOpen then decide (0 < execScalar (MariaDb.tableExistsSql t))
      else false

/-! ## Iteration helper lemmas -/

/-- One `Sqlite3ResultSet::NextRow` below the row count increments the
cursor. -/
lemma sqliteRS_nextRow_eq (rs : Sqlite3ResultSet)
    (h : rs.current_row < rs.num_rows) :
    rs.NextRow = { rs with current_row := rs.current_row + 1 } := by
  unfold Sqlite3ResultSet.NextRow
  rw [if_pos h]

/-- Iterating `Sqlite3ResultSet::NextRow` only moves the cursor, by one
per call, while rows remain. -/
lemma sqliteRS_iterate :
    ∀ (k : Nat) (rs : Sqlite3ResultSet), rs.current_row + k ≤ rs.num_rows →
      (Sqlite3ResultSet.NextRow)^[k] rs = { rs with current_row := rs.current_row + k } := by
  intro k
  induction k with
  | zero => intro rs _; simp
  | succ n ih =>
      intro rs h
      rw [Function.iterate_succ_apply, sqliteRS_nextRow_eq rs (by omega),
          ih _ (by simp; omega)]
      simp [Sqlite3ResultSet.mk.injEq]
      omega

/-- `Sqlite3ResultSet::SeekRow 0` always stores 0 (clamp and plain branch
agree there). -/
lemma sqliteRS_seek0 (rs : Sqlite3ResultSet) :
    rs.SeekRow 0 = { rs with current_row := 0 } := by
  unfold Sqlite3ResultSet.SeekRow
  by_cases h : rs.num_rows ≤ 0 ∧ 0 < rs.num_rows
  · omega
  · rw [if_neg h]

/-- Canonical iteration state of a `MariaResultSet` built over the stored
result `⟨names, rows⟩` and positioned on row `k`: the engine cursor is one
past `k` and the fetched row is row `k`. -/
def mariaRSAt (names : List (List Char)) (rows : List (List (Option (List Char))))
    (k : Nat) : MariaResultSet :=
  ⟨some ⟨names, rows, k + 1⟩, rows.get? k, some names, rows.length,
   (names.length : Int), k⟩

/-- Stepping the canonical MariaDB result-set state below the last row
reaches the next canonical state. -/
lemma mariaRSAt_next (names : List (List Char))
    (rows : List (List (Option (List Char)))) (k : Nat)
    (hk : k + 1 < rows.length) :
    (mariaRSAt names rows k).NextRow = mariaRSAt names rows (k + 1) := by
  have h2 : rows.get? (k + 1) = some (rows.get ⟨k + 1, hk⟩) := List.get?_eq_get hk
  unfold mariaRSAt MariaResultSet.NextRow MariaRes.fetch
  simp only []
  rw [if_neg (by omega), if_pos hk, h2]

/-- Iterating `MariaResultSet::NextRow` through canonical states. -/
lemma mariaRSAt_iterate (names : List (List Char))
    (rows : List (List (Option (List Char)))) :
    ∀ (j k : Nat), k + j < rows.length →
      (MariaResultSet.NextRow)^[j] (mariaRSAt names rows k) =
        mariaRSAt names rows (k + j) := by
  intro j
  induction j with
  | zero => intro k _; simp
  | succ n ih =>
      intro k h
      rw [Function.iterate_succ_apply, mariaRSAt_next names rows k (by omega),
          ih (k + 1) (by omega), show k + 1 + n = k + (n + 1) from by omega]

/-- Constructing over a non-empty stored result then `SeekRow 0` reaches
the canonical state on row 0. -/
lemma mariaRS_construct_seek0 (names : List (List Char))
    (rows : List (List (Option (List Char)))) (h : 0 < rows.length) :
    (MariaResultSet.construct (some ⟨names, rows, 0⟩)).SeekRow 0 =
      mariaRSAt names rows 0 := by
  match rows, h with
  | r :: rest, _ =>
      unfold MariaResultSet.construct MariaResultSet.SeekRow MariaRes.fetch mariaRSAt
      simp

/-- `SeekRow` past the end of a non-empty constructed MariaDB result set
clamps to the last row and fetches it. -/
lemma mariaRS_construct_seek_clamp (names : List (List Char))
    (rows : List (List (Option (List Char)))) (K : Nat) (h : 0 < rows.length) :
    ((MariaResultSet.construct (some ⟨names, rows, 0⟩)).SeekRow
        (rows.length + K)).CurrentRow = rows.length - 1 ∧
    ((MariaResultSet.construct (some ⟨names, rows, 0⟩)).SeekRow
        (rows.length + K)).row = rows.get? (rows.length - 1) := by
  obtain ⟨r, rest, rfl⟩ : ∃ a l, rows = a :: l := by
    cases rows with
    | nil => simp at h
    | cons a l => exact ⟨a, l, rfl⟩
  have hlast : (r :: rest).length - 1 < (r :: rest).length := by simp
  have h2 : (r :: rest).get? ((r :: rest).length - 1) =
      some ((r :: rest).get ⟨(r :: rest).length - 1, hlast⟩) := List.get?_eq_get hlast
  unfold MariaResultSet.construct MariaResultSet.SeekRow MariaRes.fetch
      MariaResultSet.CurrentRow
  simp [h2]

/-- `MariaResultSet::SeekRow` is a no-op on an empty set. -/
lemma mariaRS_seek_empty (rs : MariaResultSet) (n : Nat) (h : rs.num_rows = 0) :
    rs.SeekRow n = rs := by
  unfold MariaResultSet.SeekRow
  cases hres : rs.res <;> simp [hres, h]

/-! ## Claim C5 -/

/-- C5 (amended): for a materialized result set of R rows on either
backend, `SeekRow(R+K)` (K ≥ 0) lands on row R−1 when R > 0, and after
`SeekRow(0)` repeated `NextRow` visits the R rows in their original
order.  When R = 0, the client/server backend's `SeekRow` is a no-op, but
the embedded backend's stores the requested row number into the
current-row cursor (still at end-of-stream, state changed). -/
theorem seekrow_semantics :
    (∀ (rs : Sqlite3ResultSet) (K : Nat), 0 < rs.num_rows →
        (rs.SeekRow (rs.num_rows + K)).CurrentRow = rs.num_rows - 1) ∧
    (∀ (rs : Sqlite3ResultSet) (n : Nat), rs.num_rows = 0 →
        rs.SeekRow n = { rs with current_row := n }) ∧
    (∀ (rs : Sqlite3ResultSet) (k : Nat), k ≤ rs.num_rows →
        (Sqlite3ResultSet.NextRow)^[k] (rs.SeekRow 0) = { rs with current_row := k }) ∧
    (∀ (names : List (List Char)) (rows : List (List (Option (List Char))))
        (K : Nat), 0 < rows.length →
        ((MariaResultSet.construct (some ⟨names, rows, 0⟩)).SeekRow
            (rows.length + K)).CurrentRow = rows.length - 1 ∧
        ((MariaResultSet.construct (some ⟨names, rows, 0⟩)).SeekRow
            (rows.length + K)).row = rows.get? (rows.length - 1)) ∧
    (∀ (rs : MariaResultSet) (n : Nat), rs.num_rows = 0 → rs.SeekRow n = rs) ∧
    (∀ (names : List (List Char)) (rows : List (List (Option (List Char))))
        (k : Nat), k < rows.length →
        ((MariaResultSet.NextRow)^[k]
            ((MariaResultSet.construct (some ⟨names, rows, 0⟩)).SeekRow 0)).CurrentRow = k ∧
        ((MariaResultSet.NextRow)^[k]
            ((MariaResultSet.construct (some ⟨names, rows, 0⟩)).SeekRow 0)).row
          = rows.get? k) := by
  refine ⟨?_, ?_, ?_, ?_, ?_, ?_⟩
  · intro rs K h
    unfold Sqlite3ResultSet.SeekRow Sqlite3ResultSet.CurrentRow
    rw [if_pos ⟨by omega, h⟩]
  · intro rs n h
    unfold Sqlite3ResultSet.SeekRow
    rw [if_neg (by omega)]
  · intro rs k hk
    rw [sqliteRS_seek0, sqliteRS_iterate k _ (by simpa using hk)]
    simp
  · intro names rows K h
    exact mariaRS_construct_seek_clamp names rows K h
  · intro rs n h
    exact mariaRS_seek_empty rs n h
  · intro names rows k hk
    rw [mariaRS_construct_seek0 names rows (by omega),
        mariaRSAt_iterate names rows k 0 (by omega)]
    constructor
    · simp [mariaRSAt, MariaResultSet.CurrentRow]
    · simp [mariaRSAt]

/-- An empty `Sqlite3ResultSet` as `sqlite3_get_table` produces for a
query with one column and no rows (header entry only). -/
def rsEmptySqlite : Sqlite3ResultSet := ⟨some [some (("id").toList)], 0, 1, 0⟩

/-- C5 counterexample: the claim says `SeekRow` on an empty set (R = 0) is
a no-op with state unchanged; on the embedded backend `SeekRow 5` of an
empty result set changes the state, storing 5 as the current row. -/
theorem sqlite_seekrow_empty_not_noop_cex :
    rsEmptySqlite.SeekRow 5 ≠ rsEmptySqlite ∧
    (rsEmptySqlite.SeekRow 5).CurrentRow = 5 ∧
    rsEmptySqlite.NumRows = 0 := by
  refine ⟨?_, by decide, by decide⟩
  intro hcontra
  have : (rsEmptySqlite.SeekRow 5).current_row = rsEmptySqlite.current_row := by
    rw [hcontra]
  simp [rsEmptySqlite, Sqlite3ResultSet.SeekRow] at this

/-- A two-row one-column `sqlite3_get_table` block. -/
def rsW2 : Sqlite3ResultSet :=
  ⟨some [some (("id").toList), some (("1").toList), some (("2").toList)], 2, 1, 0⟩

/-- Column names of the sample MariaDB result. -/
def mariaNamesW : List (List Char) := [("id").toList]

/-- Rows of the sample MariaDB result. -/
def mariaRowsW : List (List (Option (List Char))) :=
  [[some (("1").toList)], [some (("2").toList)]]

/-- Witness for C5 at concrete inputs. -/
theorem seekrow_semantics_witness :
    (rsW2.SeekRow (rsW2.num_rows + 3)).CurrentRow = rsW2.num_rows - 1 ∧
    Sqlite3ResultSet.empty.SeekRow 7 =
      { Sqlite3ResultSet.empty with current_row := 7 } ∧
    (Sqlite3ResultSet.NextRow)^[1] (rsW2.SeekRow 0) = { rsW2 with current_row := 1 } ∧
    (((MariaResultSet.construct (some ⟨mariaNamesW, mariaRowsW, 0⟩)).SeekRow
        (mariaRowsW.length + 4)).CurrentRow = mariaRowsW.length - 1 ∧
      ((MariaResultSet.construct (some ⟨mariaNamesW, mariaRowsW, 0⟩)).SeekRow
        (mariaRowsW.length + 4)).row = mariaRowsW.get? (mariaRowsW.length - 1)) ∧
    MariaResultSet.emptyRS.SeekRow 9 = MariaResultSet.emptyRS ∧
    (((MariaResultSet.NextRow)^[1]
        ((MariaResultSet.construct (some ⟨mariaNamesW, mariaRowsW, 0⟩)).SeekRow 0)).CurrentRow = 1 ∧
      ((MariaResultSet.NextRow)^[1]
        ((MariaResultSet.construct (some ⟨mariaNamesW, mariaRowsW, 0⟩)).SeekRow 0)).row
        = mariaRowsW.get? 1) :=
  ⟨seekrow_semantics.1 rsW2 3 (by decide),
   seekrow_semantics.2.1 Sqlite3ResultSet.empty 7 (by decide),
   seekrow_semantics.2.2.1 rsW2 1 (by decide),
   seekrow_semantics.2.2.2.1 mariaNamesW mariaRowsW 4 (by decide),
   seekrow_semantics.2.2.2.2.1 MariaResultSet.emptyRS 9 (by decide),
   seekrow_semantics.2.2.2.2.2 mariaNamesW mariaRowsW 1 (by decide)⟩

/-! ## Claim C7 -/

/-- Canonical state of a `Sqlite3Query` streaming over handle `h` with
`p` rows stepped so far and the end-of-stream flag still clear. -/
def sqliteQAt (db : Option SqliteDbHandle) (h : SqliteStmt) (p : Nat) : Sqlite3Query :=
  ⟨db, some { h with pos := p }, false, (h.colNames.length : Int)⟩

/-- A `NextRow` below the row count stays in canonical form. -/
lemma sqliteQAt_next (db : Option SqliteDbHandle) (h : SqliteStmt) (p : Nat)
    (hf : h.fail = false) (hlt : p < h.rows.length) :
    (sqliteQAt db h p).NextRow = sqliteQAt db h (p + 1) := by
  unfold sqliteQAt Sqlite3Query.NextRow SqliteStmt.step
  simp [hf, hlt, SQLITE_ROW]

/-- A `NextRow` at the row count sets the end-of-stream flag. -/
lemma sqliteQAt_done (db : Option SqliteDbHandle) (h : SqliteStmt) (p : Nat)
    (hf : h.fail = false) (hge : h.rows.length ≤ p) :
    (sqliteQAt db h p).NextRow =
      ⟨db, some { h with pos := p }, true, (h.colNames.length : Int)⟩ := by
  have hnlt : ¬ p < h.rows.length := by omega
  unfold sqliteQAt Sqlite3Query.NextRow SqliteStmt.step
  simp [hf, hnlt, SQLITE_ROW, SQLITE_DONE]

/-- Iterating `Sqlite3Query::NextRow` through canonical states. -/
lemma sqliteQAt_iterate (db : Option SqliteDbHandle) (h : SqliteStmt)
    (hf : h.fail = false) :
    ∀ (j p : Nat), p + j ≤ h.rows.length →
      (Sqlite3Query.NextRow)^[j] (sqliteQAt db h p) = sqliteQAt db h (p + j) := by
  intro j
  induction j with
  | zero => intro p _; simp
  | succ n ih =>
      intro p hle
      rw [Function.iterate_succ_apply, sqliteQAt_next db h p hf (by omega),
          ih (p + 1) (by omega), show p + 1 + n = p + (n + 1) from by omega]

/-- Canonical state of a `MariaQuery` over the stored result
`⟨names, rows⟩` positioned on row `k` (engine cursor one past `k`). -/
def mariaQAt (names : List (List Char)) (rows : List (List (Option (List Char))))
    (k : Nat) : MariaQuery :=
  ⟨some ⟨names, rows, k + 1⟩, rows.get? k, true, some names, false,
   (names.length : Int), rows.length⟩

/-- A `MariaQuery::NextRow` below the last row stays in canonical form. -/
lemma mariaQAt_next (names : List (List Char))
    (rows : List (List (Option (List Char)))) (k : Nat)
    (hk : k + 1 < rows.length) :
    (mariaQAt names rows k).NextRow = mariaQAt names rows (k + 1) := by
  have h2 : rows.get? (k + 1) = some (rows.get ⟨k + 1, hk⟩) := List.get?_eq_get hk
  unfold mariaQAt MariaQuery.NextRow MariaRes.fetch
  dsimp only
  rw [h2]

/-- A `MariaQuery::NextRow` on the last row exhausts the stream. -/
lemma mariaQAt_last (names : List (List Char))
    (rows : List (List (Option (List Char)))) (k : Nat)
    (hk : rows.length ≤ k + 1) :
    (mariaQAt names rows k).NextRow =
      ⟨some ⟨names, rows, k + 1⟩, none, false, some names, true,
       (names.length : Int), rows.length⟩ := by
  have h2 : rows.get? (k + 1) = none := by
    rw [List.get?_eq_none]
    omega
  unfold mariaQAt MariaQuery.NextRow MariaRes.fetch
  dsimp only
  rw [h2]

/-- Iterating `MariaQuery::NextRow` through canonical states. -/
lemma mariaQAt_iterate (names : List (List Char))
    (rows : List (List (Option (List Char)))) :
    ∀ (j k : Nat), k + j < rows.length →
      (MariaQuery.NextRow)^[j] (mariaQAt names rows k) =
        mariaQAt names rows (k + j) := by
  intro j
  induction j with
  | zero => intro k _; simp
  | succ n ih =>
      intro k h
      rw [Function.iterate_succ_apply, mariaQAt_next names rows k (by omega),
          ih (k + 1) (by omega), show k + 1 + n = k + (n + 1) from by omega]

/-- `MariaDb::ExecQuery` over a non-empty stored result yields the
canonical cursor on row 0. -/
lemma mariaDb_execquery_nonempty (sql : List Char) (names : List (List Char))
    (rows : List (List (Option (List Char)))) (fc : Nat) (em : List Char)
    (h : 0 < rows.length) :
    (MariaDb.ExecQueryM (some ()) (some sql) true (some ⟨names, rows, 0⟩) fc em).1 =
      mariaQAt names rows 0 := by
  obtain ⟨r, rest, rfl⟩ : ∃ a l, rows = a :: l := by
    cases rows with
    | nil => simp at h
    | cons a l => exact ⟨a, l, rfl⟩
  unfold MariaDb.ExecQueryM MariaQuery.construct MariaRes.fetch mariaQAt
  simp

/-- C7: for every forward cursor on either backend, over an empty result
`Eof()` is true immediately on creation; over a non-empty result of R rows
`Eof()` is initially false and exactly R `NextRow()` calls — never fewer,
never more — flip it to true (given the engine delivers the R rows without
a mid-stream error). -/
theorem cursor_eof_exact_steps :
    (∀ (dbh : SqliteDbHandle) (sql : List Char) (h : SqliteStmt),
        h.pos = 0 → h.fail = false →
        (h.rows.length = 0 →
          (Sqlite3Db.ExecQueryM (some dbh) (some sql) (some h)).1.Eof = true) ∧
        (∀ k : Nat, k < h.rows.length →
          ((Sqlite3Query.NextRow)^[k]
            (Sqlite3Db.ExecQueryM (some dbh) (some sql) (some h)).1).Eof = false) ∧
        (0 < h.rows.length →
          ((Sqlite3Query.NextRow)^[h.rows.length]
            (Sqlite3Db.ExecQueryM (some dbh) (some sql) (some h)).1).Eof = true)) ∧
    (∀ (sql : List Char) (names : List (List Char))
        (rows : List (List (Option (List Char)))) (fc : Nat) (em : List Char),
        (rows.length = 0 →
          (MariaDb.ExecQueryM (some ()) (some sql) true (some ⟨names, rows, 0⟩) fc em).1.Eof
            = true) ∧
        (∀ k : Nat, k < rows.length →
          ((MariaQuery.NextRow)^[k]
            (MariaDb.ExecQueryM (some ()) (some sql) true (some ⟨names, rows, 0⟩) fc em).1).Eof
            = false) ∧
        (0 < rows.length →
          ((MariaQuery.NextRow)^[rows.length]
            (MariaDb.ExecQueryM (some ()) (some sql) true (some ⟨names, rows, 0⟩) fc em).1).Eof
            = true)) := by
  constructor
  · intro dbh sql h hpos hf
    have hq : ∀ hnz : 0 < h.rows.length,
        (Sqlite3Db.ExecQueryM (some dbh) (some sql) (some h)).1 = sqliteQAt (some dbh) h 1 := by
      intro hnz
      unfold Sqlite3Db.ExecQueryM SqliteStmt.step Sqlite3Query.mkQ sqliteQAt
      simp [hpos, hf, hnz, SQLITE_ROW, SQLITE_DONE]
    refine ⟨?_, ?_, ?_⟩
    · intro hz
      unfold Sqlite3Db.ExecQueryM SqliteStmt.step Sqlite3Query.mkQ Sqlite3Query.Eof
      simp [hpos, hf, hz]
    · intro k hk
      rw [hq (by omega), sqliteQAt_iterate (some dbh) h hf k 1 (by omega)]
      rfl
    · intro hnz
      rw [hq hnz,
          show h.rows.length = (h.rows.length - 1) + 1 from by omega,
          Function.iterate_succ_apply',
          sqliteQAt_iterate (some dbh) h hf (h.rows.length - 1) 1 (by omega),
          sqliteQAt_done (some dbh) h _ hf (by omega)]
      rfl
  · intro sql names rows fc em
    refine ⟨?_, ?_, ?_⟩
    · intro hz
      unfold MariaDb.ExecQueryM MariaQuery.construct MariaQuery.Eof
      simp [hz]
    · intro k hk
      rw [mariaDb_execquery_nonempty sql names rows fc em (by omega),
          mariaQAt_iterate names rows k 0 (by omega)]
      rfl
    · intro hnz
      rw [mariaDb_execquery_nonempty sql names rows fc em hnz,
          show rows.length = (rows.length - 1) + 1 from by omega,
          Function.iterate_succ_apply',
          mariaQAt_iterate names rows (rows.length - 1) 0 (by omega),
          mariaQAt_last names rows _ (by omega)]
      rfl

/-- Sample SQLite connection handle. -/
def dbhW : SqliteDbHandle := ⟨0, []⟩

/-- Sample query text. -/
def sqlW : List Char := ("SELECT id FROM emp").toList

/-- Sample compiled statement delivering two one-column rows. -/
def hW : SqliteStmt :=
  ⟨[("id").toList],
   [[some ⟨1, 1, 1, some (("1").toList)⟩], [some ⟨2, 2, 2, some (("2").toList)⟩]],
   0, false, []⟩

/-- Sample compiled statement delivering no rows. -/
def hW0 : SqliteStmt := ⟨[("id").toList], [], 0, false, []⟩

/-- Witness for C7 at concrete inputs (0-row and 2-row results on both
backends). -/
theorem cursor_eof_exact_steps_witness :
    (Sqlite3Db.ExecQueryM (some dbhW) (some sqlW) (some hW0)).1.Eof = true ∧
    ((Sqlite3Query.NextRow)^[1]
      (Sqlite3Db.ExecQueryM (some dbhW) (some sqlW) (some hW)).1).Eof = false ∧
    ((Sqlite3Query.NextRow)^[hW.rows.length]
      (Sqlite3Db.ExecQueryM (some dbhW) (some sqlW) (some hW)).1).Eof = true ∧
    (MariaDb.ExecQueryM (some ()) (some sqlW) true
      (some ⟨mariaNamesW, [], 0⟩) 1 []).1.Eof = true ∧
    ((MariaQuery.NextRow)^[1]
      (MariaDb.ExecQueryM (some ()) (some sqlW) true
        (some ⟨mariaNamesW, mariaRowsW, 0⟩) 1 []).1).Eof = false ∧
    ((MariaQuery.NextRow)^[mariaRowsW.length]
      (MariaDb.ExecQueryM (some ()) (some sqlW) true
        (some ⟨mariaNamesW, mariaRowsW, 0⟩) 1 []).1).Eof = true :=
  ⟨(cursor_eof_exact_steps.1 dbhW sqlW hW0 rfl rfl).1 rfl,
   (cursor_eof_exact_steps.1 dbhW sqlW hW rfl rfl).2.1 1 (by decide),
   (cursor_eof_exact_steps.1 dbhW sqlW hW rfl rfl).2.2 (by decide),
   (cursor_eof_exact_steps.2 sqlW mariaNamesW [] 1 []).1 rfl,
   (cursor_eof_exact_steps.2 sqlW mariaNamesW mariaRowsW 1 []).2.1 1 (by decide),
   (cursor_eof_exact_steps.2 sqlW mariaNamesW mariaRowsW 1 []).2.2 (by decide)⟩

/-! ## Claim C8 -/

/-- C8: for every forward cursor on either backend, every typed getter
(`GetInt`, `GetInt64`, `GetDouble`, `GetString`), addressed by position or
by name, returns the caller-supplied default whenever the field is null,
the position is out of `[0, NumFields)` (such positions report as null),
or the name does not resolve to a column; the getters return plain values
and never report an error.  (The result-set classes expose no typed
getters, so the claim is vacuous for them.) -/
theorem typed_getters_default :
    (∀ (q : Sqlite3Query) (col : Int) (dI dI64 : Int) (dD : Rat) (dS : List Char),
       (q.FieldIsNull col = true →
          q.GetInt col dI = dI ∧ q.GetInt64 col dI64 = dI64 ∧
          q.GetDouble col dD = dD ∧ q.GetString col dS = dS) ∧
       ((col < 0 ∨ q.num_fields ≤ col) → q.FieldIsNull col = true)) ∧
    (∀ (q : Sqlite3Query) (name : Option (List Char)) (dI : Int) (dD : Rat)
        (dS : List Char),
       q.FieldIndex name < 0 →
          q.GetIntName name dI = dI ∧ q.GetDoubleName name dD = dD ∧
          q.GetStringName name dS = dS) ∧
    (∀ (mq : MariaQuery) (col : Int) (dI dI64 : Int) (dD : Rat) (dS : List Char),
       (mq.FieldIsNull col = true →
          mq.GetInt col dI = dI ∧ mq.GetInt64 col dI64 = dI64 ∧
          mq.GetDouble col dD = dD ∧ mq.GetString col dS = dS) ∧
       ((col < 0 ∨ mq.num_fields ≤ col) → mq.FieldIsNull col = true)) ∧
    (∀ (mq : MariaQuery) (name : Option (List Char)) (dI : Int) (dD : Rat)
        (dS : List Char),
       mq.FieldIndex name < 0 →
          mq.GetIntName name dI = dI ∧ mq.GetDoubleName name dD = dD ∧
          mq.GetStringName name dS = dS) := by
  refine ⟨?_, ?_, ?_, ?_⟩
  · intro q col dI dI64 dD dS
    constructor
    · intro hnull
      refine ⟨?_, ?_, ?_, ?_⟩ <;>
        simp [Sqlite3Query.GetInt, Sqlite3Query.GetInt64, Sqlite3Query.GetDouble,
              Sqlite3Query.GetString, hnull]
    · intro hcol
      unfold Sqlite3Query.FieldIsNull
      cases hs : q.stmt with
      | none => rfl
      | some h =>
          dsimp only
          rw [if_pos hcol]
  · intro q name dI dD dS hneg
    have hn : ¬ 0 ≤ q.FieldIndex name := by omega
    refine ⟨?_, ?_, ?_⟩
    · simp [Sqlite3Query.GetIntName, hn]
    · simp [Sqlite3Query.GetDoubleName, hn]
    · simp [Sqlite3Query.GetStringName, hn]
  · intro mq col dI dI64 dD dS
    constructor
    · intro hnull
      refine ⟨?_, ?_, ?_, ?_⟩ <;>
        simp [MariaQuery.GetInt, MariaQuery.GetInt64, MariaQuery.GetDouble,
              MariaQuery.GetString, hnull]
    · intro hcol
      unfold MariaQuery.FieldIsNull
      cases hs : mq.row with
      | none => rfl
      | some r =>
          dsimp only
          rw [if_pos hcol]
  · intro mq name dI dD dS hneg
    have hn : ¬ 0 ≤ mq.FieldIndex name := by omega
    refine ⟨?_, ?_, ?_⟩
    · simp [MariaQuery.GetIntName, hn]
    · simp [MariaQuery.GetDoubleName, hn]
    · simp [MariaQuery.GetStringName, hn]

/-- Sample SQLite cursor positioned on a row whose single column is NULL. -/
def qWnull : Sqlite3Query :=
  ⟨some dbhW, some ⟨[("name").toList], [[none]], 1, false, []⟩, false, 1⟩

/-- Sample MariaDB cursor positioned on a row whose single column is NULL. -/
def mqWnull : MariaQuery :=
  ⟨some ⟨[("name").toList], [[none]], 1⟩, some [none], true,
   some [("name").toList], false, 1, 1⟩

/-- Witness for C8 at concrete inputs (null field, out-of-range position,
unresolvable name). -/
theorem typed_getters_default_witness :
    (qWnull.GetInt 0 99 = 99 ∧ qWnull.GetInt64 0 77 = 77 ∧
     qWnull.GetDouble 0 3 = 3 ∧ qWnull.GetString 0 (("d").toList) = ("d").toList) ∧
    qWnull.FieldIsNull 5 = true ∧
    (qWnull.GetIntName (some (("missing").toList)) 42 = 42 ∧
     qWnull.GetDoubleName (some (("missing").toList)) 5 = 5 ∧
     qWnull.GetStringName (some (("missing").toList)) (("d").toList) = ("d").toList) ∧
    (mqWnull.GetInt 0 99 = 99 ∧ mqWnull.GetInt64 0 77 = 77 ∧
     mqWnull.GetDouble 0 3 = 3 ∧ mqWnull.GetString 0 (("d").toList) = ("d").toList) ∧
    mqWnull.FieldIsNull 5 = true ∧
    (mqWnull.GetIntName (some (("missing").toList)) 42 = 42 ∧
     mqWnull.GetDoubleName (some (("missing").toList)) 5 = 5 ∧
     mqWnull.GetStringName (some (("missing").toList)) (("d").toList) = ("d").toList) :=
  ⟨(typed_getters_default.1 qWnull 0 99 77 3 (("d").toList)).1 (by decide),
   (typed_getters_default.1 qWnull 5 0 0 0 []).2 (by decide),
   typed_getters_default.2.1 qWnull (some (("missing").toList)) 42 5 (("d").toList)
     (by decide),
   (typed_getters_default.2.2.1 mqWnull 0 99 77 3 (("d").toList)).1 (by decide),
   (typed_getters_default.2.2.1 mqWnull 5 0 0 0 []).2 (by decide),
   typed_getters_default.2.2.2 mqWnull (some (("missing").toList)) 42 5 (("d").toList)
     (by decide)⟩

/-! ## Claim C1 -/

/-- C1 (amended): on the embedded backend, `ExecQuery` whose first step
reports a row or completion (guaranteed when the engine does not fail the
step) transfers the native handle to the returned cursor and leaves the
statement empty (`Valid()` false), while `ExecDml` whose step reports
completion leaves the statement holding its compiled handle and reusable.
On the client/server backend `ExecDml` likewise never consumes, but
`ExecQuery` NEVER transfers the handle: in every branch — including when
the native execute reports success — the statement keeps its compiled
handle and the returned cursor is the empty one. -/
theorem exec_transfer_semantics :
    (∀ (s : Sqlite3Statement) (dbh : SqliteDbHandle) (h : SqliteStmt),
       s.db = some dbh → s.stmt = some h → h.fail = false →
       (s.ExecQuery.1.stmt = some h.step.2 ∧
        s.ExecQuery.2.2.Valid = false ∧
        s.ExecQuery.2.2.stmt = none) ∧
       (h.rows.length ≤ h.pos →
        s.ExecDml.1 = dbh.changes ∧
        s.ExecDml.2.2.Valid = true ∧
        s.ExecDml.2.2.stmt = some h.step.2.reset)) ∧
    (∀ ms : MariaStatement,
       ms.ExecQuery.2.2 = ms ∧ ms.ExecQuery.1 = MariaQuery.empty ∧
       ms.ExecDml.2.2 = ms) := by
  constructor
  · intro s dbh h hdb hst hf
    obtain ⟨sdb, sst⟩ := s
    cases hdb
    cases hst
    constructor
    · by_cases hlt : h.pos < h.rows.length <;>
        simp [Sqlite3Statement.ExecQuery, SqliteStmt.step, hf, hlt,
              Sqlite3Query.mkQ, Sqlite3Statement.Valid, SQLITE_ROW, SQLITE_DONE]
    · intro hge
      have hnlt : ¬ h.pos < h.rows.length := by omega
      simp [Sqlite3Statement.ExecDml, SqliteStmt.step, hf, hnlt,
            Sqlite3Statement.Valid, SQLITE_ROW, SQLITE_DONE]
  · intro ms
    refine ⟨?_, ?_, ?_⟩
    · unfold MariaStatement.ExecQuery
      cases hs : ms.stmt <;> cases hc : ms.conn <;> dsimp only <;>
        split_ifs <;> rfl
    · unfold MariaStatement.ExecQuery
      cases hs : ms.stmt <;> cases hc : ms.conn <;> dsimp only <;>
        split_ifs <;> rfl
    · unfold MariaStatement.ExecDml
      cases hs : ms.stmt <;> dsimp only <;> split_ifs <;> rfl

/-- A MariaDB prepared handle whose native bind, execute, metadata and
store-result calls all succeed. -/
def mhExecOk : MariaStmtHandle := ⟨0, true, true, 1, true, true, true, []⟩

/-- A compiled MariaDB statement over that handle (no parameters). -/
def msExecOk : MariaStatement := MariaStatement.construct (some ()) (some mhExecOk)

/-- C1 counterexample: on the client/server backend, an `ExecQuery` whose
native execute reports completion does NOT transfer the handle — the
statement is still `Valid()` afterwards and the returned cursor is the
empty one, contradicting the claim that success moves ownership and
empties the statement. -/
theorem maria_execquery_no_transfer_cex :
    mhExecOk.exec_ok = true ∧
    msExecOk.ExecQuery.2.2.Valid = true ∧
    msExecOk.ExecQuery.2.2 = msExecOk ∧
    msExecOk.ExecQuery.1 = MariaQuery.empty := by
  refine ⟨rfl, by decide, by decide, by decide⟩

/-- Witness for C1 at concrete inputs. -/
theorem exec_transfer_semantics_witness :
    ((Sqlite3Statement.mk (some dbhW) (some hW)).ExecQuery.2.2.Valid = false ∧
     (Sqlite3Statement.mk (some dbhW) (some hW)).ExecQuery.1.stmt = some hW.step.2) ∧
    ((Sqlite3Statement.mk (some dbhW) (some hW0)).ExecDml.1 = dbhW.changes ∧
     (Sqlite3Statement.mk (some dbhW) (some hW0)).ExecDml.2.2.Valid = true) ∧
    (msExecOk.ExecQuery.2.2 = msExecOk ∧ msExecOk.ExecDml.2.2 = msExecOk) :=
  ⟨⟨((exec_transfer_semantics.1 ⟨some dbhW, some hW⟩ dbhW hW rfl rfl rfl).1).2.1,
    ((exec_transfer_semantics.1 ⟨some dbhW, some hW⟩ dbhW hW rfl rfl rfl).1).1⟩,
   ⟨((exec_transfer_semantics.1 ⟨some dbhW, some hW0⟩ dbhW hW0 rfl rfl rfl).2
      (by decide)).1,
    ((exec_transfer_semantics.1 ⟨some dbhW, some hW0⟩ dbhW hW0 rfl rfl rfl).2
      (by decide)).2.1⟩,
   ⟨(exec_transfer_semantics.2 msExecOk).1,
    (exec_transfer_semantics.2 msExecOk).2.2⟩⟩

/-! ## Claim C9 -/

/-- The error message of the unimplemented MariaDB prepared-SELECT path. -/
def msgPreparedSelect : List Char :=
  ("Prepared SELECT not yet supported, use Db::ExecQuery").toList

/-- C9: on the client/server backend, `ExecQuery` of a prepared statement
whose SQL yields result metadata (a prepared SELECT) — with the native
bind/execute/store calls succeeding — reports a GenericFailure (`kError`)
whose message directs the caller to the connection's non-prepared query
path, and returns the empty/invalid cursor (already at end-of-stream). -/
theorem maria_prepared_select_unsupported :
    ∀ (ms : MariaStatement) (mh : MariaStmtHandle),
      ms.stmt = some mh → ms.conn = some () →
      (0 < ms.num_params → ms.binds.isSome → mh.bind_ok = true) →
      mh.exec_ok = true → mh.has_meta = true → mh.store_ok = true →
      ms.ExecQuery.2.1.code = ErrorCode.kError ∧
      ms.ExecQuery.2.1.message = msgPreparedSelect ∧
      ms.ExecQuery.1 = MariaQuery.empty ∧
      ms.ExecQuery.1.Eof = true := by
  intro ms mh hstmt hconn hbind hexec hmeta hstore
  obtain ⟨conn, stf, binds, s32, s64, sd, np⟩ := ms
  cases hstmt
  cases hconn
  have hb : ¬ (0 < np ∧ binds.isSome = true ∧ ¬ mh.bind_ok = true) := by
    rintro ⟨a, b, c⟩
    exact c (hbind a b)
  unfold MariaStatement.ExecQuery
  dsimp only
  rw [if_neg hb, hexec, hmeta, hstore]
  simp only [not_true, if_false, ite_false, Bool.not_true, reduceIte]
  refine ⟨rfl, ?_, ?_, ?_⟩ <;>
    first
      | exact trivial
      | rfl

/-- A parameterless MariaDB prepared SELECT whose native calls succeed. -/
def msSelect9 : MariaStatement :=
  MariaStatement.construct (some ()) (some ⟨0, true, true, 0, true, true, true, []⟩)

/-- Witness for C9 at a concrete statement. -/
theorem maria_prepared_select_unsupported_witness :
    msSelect9.ExecQuery.2.1.code = ErrorCode.kError ∧
    msSelect9.ExecQuery.2.1.message = msgPreparedSelect ∧
    msSelect9.ExecQuery.1 = MariaQuery.empty ∧
    msSelect9.ExecQuery.1.Eof = true :=
  maria_prepared_select_unsupported msSelect9 ⟨0, true, true, 0, true, true, true, []⟩
    rfl rfl (fun h _ => absurd h (by decide)) rfl rfl rfl

/-! ## Claim C3 -/

/-- C3 (amended): for every prepared statement and every bind form, a
1-based position whose converted index lies outside `[0, paramCount)`
mutates no state on either backend; the client/server backend reports the
OutOfRange (`kRange`) error as claimed, but the embedded backend forwards
the native bind failure (`SQLITE_RANGE`) as a GenericFailure (`kError`),
not as OutOfRange. -/
theorem bind_out_of_range :
    (∀ (ms : MariaStatement) (param : Int) (vI vI64 : Int) (vD : Rat)
        (vT vB : Option (List Char)) (len : Int),
       ¬ (0 ≤ param - 1 ∧ param - 1 < ms.num_params) →
       ms.BindInt param vI = (Error.Make ErrorCode.kRange (some msgParamOutOfRange), ms) ∧
       ms.BindInt64 param vI64 = (Error.Make ErrorCode.kRange (some msgParamOutOfRange), ms) ∧
       ms.BindDouble param vD = (Error.Make ErrorCode.kRange (some msgParamOutOfRange), ms) ∧
       ms.BindText param vT = (Error.Make ErrorCode.kRange (some msgParamOutOfRange), ms) ∧
       ms.BindBlob param vB len = (Error.Make ErrorCode.kRange (some msgParamOutOfRange), ms) ∧
       ms.BindNull param = (Error.Make ErrorCode.kRange (some msgParamOutOfRange), ms)) ∧
    (∀ (s : Sqlite3Statement) (h : SqliteStmt) (param : Int) (vI vI64 : Int)
        (vD : Rat) (vT vB : Option (List Char)) (len : Int),
       s.stmt = some h → ¬ (1 ≤ param ∧ param ≤ h.paramCount) →
       ((s.BindInt param vI).1.code = ErrorCode.kError ∧ (s.BindInt param vI).2 = s) ∧
       ((s.BindInt64 param vI64).1.code = ErrorCode.kError ∧ (s.BindInt64 param vI64).2 = s) ∧
       ((s.BindDouble param vD).1.code = ErrorCode.kError ∧ (s.BindDouble param vD).2 = s) ∧
       ((s.BindText param vT).1.code = ErrorCode.kError ∧ (s.BindText param vT).2 = s) ∧
       ((s.BindBlob param vB len).1.code = ErrorCode.kError ∧ (s.BindBlob param vB len).2 = s) ∧
       ((s.BindNull param).1.code = ErrorCode.kError ∧ (s.BindNull param).2 = s)) := by
  constructor
  · intro ms param vI vI64 vD vT vB len hrange
    have hvp : ¬ ms.ValidParam (param - 1) = true := by
      unfold MariaStatement.ValidParam
      simp only [Bool.and_eq_true, decide_eq_true_eq]
      rintro ⟨⟨⟨_, _⟩, hp⟩, hq⟩
      exact hrange ⟨hp, hq⟩
    refine ⟨?_, ?_, ?_, ?_, ?_, ?_⟩ <;>
      simp [MariaStatement.BindInt, MariaStatement.BindInt64,
            MariaStatement.BindDouble, MariaStatement.BindText,
            MariaStatement.BindBlob, MariaStatement.BindNull, hvp]
  · intro s h param vI vI64 vD vT vB len hst hno
    obtain ⟨sdb, sst⟩ := s
    cases hst
    refine ⟨?_, ?_, ?_, ?_, ?_, ?_⟩ <;>
      simp [Sqlite3Statement.BindInt, Sqlite3Statement.BindInt64,
            Sqlite3Statement.BindDouble, Sqlite3Statement.BindText,
            Sqlite3Statement.BindBlob, Sqlite3Statement.BindNull,
            SqliteStmt.bindAt, hno, SQLITE_RANGE, SQLITE_OK,
            Error.Make, Error.Set]

/-- A compiled embedded-backend statement with exactly one parameter
slot. -/
def stRange : Sqlite3Statement := ⟨some dbhW, some ⟨[], [], 0, false, [none]⟩⟩

/-- C3 counterexample: on the embedded backend, binding position 2 of a
one-parameter statement (out of range) yields an error of the
GenericFailure kind (`kError`), not the OutOfRange kind (`kRange`) the
claim requires; the state is unchanged. -/
theorem sqlite_bind_range_kind_cex :
    (stRange.BindInt 2 7).1.code = ErrorCode.kError ∧
    (stRange.BindInt 2 7).1.code ≠ ErrorCode.kRange ∧
    (stRange.BindInt 2 7).2 = stRange := by
  refine ⟨by decide, by decide, by decide⟩

/-- A compiled client/server-backend statement with one parameter slot. -/
def msP1 : MariaStatement :=
  MariaStatement.construct (some ()) (some ⟨1, true, true, 0, true, true, true, []⟩)

/-- Witness for C3 at concrete inputs (position 5 of a one-parameter
statement on both backends). -/
theorem bind_out_of_range_witness :
    msP1.BindInt 5 7 = (Error.Make ErrorCode.kRange (some msgParamOutOfRange), msP1) ∧
    (stRange.BindNull 5).1.code = ErrorCode.kError ∧
    (stRange.BindNull 5).2 = stRange :=
  ⟨(bind_out_of_range.1 msP1 5 7 0 0 none none 0 (by decide)).1,
   (bind_out_of_range.2 stRange ⟨[], [], 0, false, [none]⟩ 5 0 0 0 none none 0
     rfl (by decide)).2.2.2.2.2.1,
   (bind_out_of_range.2 stRange ⟨[], [], 0, false, [none]⟩ 5 0 0 0 none none 0
     rfl (by decide)).2.2.2.2.2.2⟩

/-! ## Claim C4 -/

/-- C4 (amended): `Reset` keeps the compiled handle on both backends, so
the statement stays valid, and clears the result-iteration state.  On the
client/server backend it also zeroes the parameter bind descriptors (the
typed storage cells keep their bytes but no descriptor references a bound
value any more), so previously bound values no longer apply.  On the
embedded backend `sqlite3_reset` retains the engine-side parameter
bindings: previously bound values still apply. -/
theorem reset_semantics :
    (∀ (s : Sqlite3Statement) (h : SqliteStmt), s.stmt = some h →
       s.Reset = (Error.Ok, { s with stmt := some h.reset }) ∧
       h.reset.pos = 0 ∧ h.reset.bindings = h.bindings ∧
       (s.Reset).2.Valid = true) ∧
    (∀ (ms : MariaStatement) (mh : MariaStmtHandle), ms.stmt = some mh →
       mh.reset_ok = true →
       (ms.Reset).1 = Error.Ok ∧
       (ms.Reset).2.stmt = some mh ∧
       (ms.Reset).2.Valid = true ∧
       (ms.Reset).2.binds =
         ms.binds.map (fun a => List.replicate a.length MariaBind.cleared) ∧
       (ms.Reset).2.int_storage = ms.int_storage ∧
       (ms.Reset).2.int64_storage = ms.int64_storage ∧
       (ms.Reset).2.double_storage = ms.double_storage) := by
  constructor
  · intro s h hst
    obtain ⟨sdb, sst⟩ := s
    cases hst
    refine ⟨rfl, rfl, rfl, rfl⟩
  · intro ms mh hst hok
    obtain ⟨conn, stf, binds, s32, s64, sd, np⟩ := ms
    cases hst
    unfold MariaStatement.Reset
    dsimp only
    rw [hok]
    simp [MariaStatement.Valid]

/-- An embedded-backend statement mid-iteration with parameter 1 bound to
the integer 42 (engine-side binding slot holds the value). -/
def stBound : Sqlite3Statement :=
  ⟨some dbhW, some ⟨[], [], 3, false, [some (SqliteBindVal.intv 42)]⟩⟩

/-- C4 counterexample: the claim says `Reset` clears parameter storage so
previously bound values no longer apply; on the embedded backend `Reset`
(which calls only `sqlite3_reset`, never `sqlite3_clear_bindings`) leaves
the engine binding slot still holding the bound 42 — an unbound slot would
be `none`. -/
theorem sqlite_reset_keeps_bindings_cex :
    ((stBound.Reset).2.stmt.map SqliteStmt.bindings) =
      some [some (SqliteBindVal.intv 42)] ∧
    some [some (SqliteBindVal.intv 42)] ≠
      some ([none] : List (Option SqliteBindVal)) ∧
    ((stBound.Reset).2.stmt.map SqliteStmt.pos) = some 0 ∧
    (stBound.Reset).2.Valid = true := by
  refine ⟨by decide, by decide, by decide, by decide⟩

/-- Witness for C4 at concrete inputs. -/
theorem reset_semantics_witness :
    stBound.Reset =
      (Error.Ok, { stBound with stmt := some (SqliteStmt.reset ⟨[], [], 3, false, [some (SqliteBindVal.intv 42)]⟩) }) ∧
    (msP1.Reset).1 = Error.Ok ∧
    (msP1.Reset).2.stmt = some ⟨1, true, true, 0, true, true, true, []⟩ ∧
    (msP1.Reset).2.binds =
      msP1.binds.map (fun a => List.replicate a.length MariaBind.cleared) :=
  ⟨(reset_semantics.1 stBound ⟨[], [], 3, false, [some (SqliteBindVal.intv 42)]⟩ rfl).1,
   ((reset_semantics.2 msP1 ⟨1, true, true, 0, true, true, true, []⟩ rfl rfl)).1,
   ((reset_semantics.2 msP1 ⟨1, true, true, 0, true, true, true, []⟩ rfl rfl)).2.1,
   ((reset_semantics.2 msP1 ⟨1, true, true, 0, true, true, true, []⟩ rfl rfl)).2.2.2.1⟩

/-! ## Claim C6 -/

/-- Modelled from the spec: standard SQL escaping of a string literal
doubles every single-quote character.  Used only to state the spec's
"escape/parameterize the name" requirement, for comparison with the
source's `snprintf` splicing. -/
def sqlEscapeQuotes : List Char → List Char
  | [] => []
  | c :: rest =>
      if c = sq then c :: c :: sqlEscapeQuotes rest
      else c :: sqlEscapeQuotes rest

/-- Modelled from the spec: the table name counts as defensively handled
in the generated SQL when either a bind-parameter placeholder appears in
the SQL, or the name occurs in its escaped form (every quote doubled). -/
def specTableNameDefended (sql name : List Char) : Prop :=
  '?' ∈ sql ∨ (sqlEscapeQuotes name) <:+: sql

/-- A list infix survives `take 255` of a list that fits the buffer. -/
lemma infix_take_of_le (t L : List Char) (h : t <:+: L) (hL : L.length ≤ 255) :
    t <:+: L.take 255 := by
  rw [List.take_of_length_le hL]
  exact h

/-- C6 (amended): on every open connection of either backend,
`TableExists(name)` issues the engine-specific metadata-catalog count
query and returns true iff the resulting count is greater than 0; however
the table name is NOT escaped or bound as a parameter — it is spliced
verbatim into the SQL text by `snprintf` `%s` formatting (for any name
that fits the 256-byte buffer the raw name appears as an infix of the
issued SQL). -/
theorem table_exists_catalog_count :
    (∀ (t : List Char) (execScalar : List Char → Int),
       (Sqlite3Db.TableExists true (some t) execScalar = true ↔
         0 < execScalar (Sqlite3Db.tableExistsSql t)) ∧
       (MariaDb.TableExists true (some t) execScalar = true ↔
         0 < execScalar (MariaDb.tableExistsSql t))) ∧
    (∀ t : List Char, t.length ≤ 150 →
       t <:+: Sqlite3Db.tableExistsSql t ∧ t <:+: MariaDb.tableExistsSql t) := by
  constructor
  · intro t execScalar
    constructor
    · unfold Sqlite3Db.TableExists
      simp
    · unfold MariaDb.TableExists
      simp
  · intro t ht
    have h1 : ("SELECT count(*) FROM sqlite_master WHERE type=").toList.length = 46 := by
      rfl
    have h2 : ("table").toList.length = 5 := by rfl
    have h3 : (" AND name=").toList.length = 10 := by rfl
    have h4 : ("SELECT COUNT(*) FROM information_schema.tables WHERE table_schema = DATABASE() AND table_name = ").toList.length = 96 := by
      rfl
    constructor
    · apply infix_take_of_le
      · exact ⟨("SELECT count(*) FROM sqlite_master WHERE type=").toList ++ [sq] ++
          ("table").toList ++ [sq] ++ (" AND name=").toList ++ [sq], [sq], by simp⟩
      · simp [h1, h2, h3]
        omega
    · apply infix_take_of_le
      · exact ⟨("SELECT COUNT(*) FROM information_schema.tables WHERE table_schema = DATABASE() AND table_name = ").toList ++ [sq],
          [sq], by simp⟩
      · simp [h4]
        omega

/-- A table name containing a single-quote. -/
def nameCE : List Char := ['a', sq, 'b']

set_option maxRecDepth 40000 in
/-- C6 counterexample: for the name `a'b`, neither backend's generated
catalog query contains a bind placeholder or the escaped (quote-doubled)
name — instead the raw name is spliced verbatim into the SQL text, so the
claim's "escaped or bound as a parameter rather than spliced" is false. -/
theorem table_exists_name_spliced_cex :
    ¬ specTableNameDefended (Sqlite3Db.tableExistsSql nameCE) nameCE ∧
    ¬ specTableNameDefended (MariaDb.tableExistsSql nameCE) nameCE ∧
    nameCE <:+: Sqlite3Db.tableExistsSql nameCE ∧
    nameCE <:+: MariaDb.tableExistsSql nameCE := by
  unfold specTableNameDefended
  refine ⟨by decide, by decide, by decide, by decide⟩

/-- Witness for C6 at the concrete name `emp`. -/
theorem table_exists_catalog_count_witness :
    (Sqlite3Db.TableExists true (some (("emp").toList)) (fun _ => 1) = true ↔
      0 < (fun _ => (1 : Int)) (Sqlite3Db.tableExistsSql (("emp").toList))) ∧
    (("emp").toList <:+: Sqlite3Db.tableExistsSql (("emp").toList) ∧
     ("emp").toList <:+: MariaDb.tableExistsSql (("emp").toList)) :=
  ⟨(table_exists_catalog_count.1 (("emp").toList) (fun _ => 1)).1,
   table_exists_catalog_count.2 (("emp").toList) (by decide)⟩

/-! ## Claim C2 -/

/-- A one-parameter MariaDB prepared handle. -/
def mhP1 : MariaStmtHandle := ⟨1, true, true, 1, true, true, true, []⟩

/-- A one-parameter MariaDB statement with parameter 1 bound to the
integer 42 (bound-by-address: the bind descriptor references slot 0 of the
owned `int_storage_` array, which holds 42). -/
def c2src : MariaStatement :=
  ((MariaStatement.construct (some ()) (some mhP1)).BindInt 1 42).2

/-- C2 (code bug): moving a `MariaStatement` transfers `conn_`, `stmt_`,
`binds_` and `num_params_` but NOT the three owned typed storage arrays:
the destination — though `Valid()` with a one-slot bind array whose
descriptor references storage slot 0 — owns no storage at all
(`int_storage_` etc. are null, so its own test's `stmt2.Bind(1, 1)` would
write through a null pointer), while the source keeps the arrays holding
the bound 42 and will free them on destruction even though the moved bind
descriptors still reference them. -/
theorem maria_statement_move_drops_storage :
    (MariaStatement.moveConstruct c2src).1.Valid = true ∧
    (MariaStatement.moveConstruct c2src).1.num_params = 1 ∧
    (MariaStatement.moveConstruct c2src).1.binds = some [MariaBind.i32ref 0] ∧
    (MariaStatement.moveConstruct c2src).1.int_storage = none ∧
    (MariaStatement.moveConstruct c2src).1.int64_storage = none ∧
    (MariaStatement.moveConstruct c2src).1.double_storage = none ∧
    (MariaStatement.moveConstruct c2src).2.Valid = false ∧
    (MariaStatement.moveConstruct c2src).2.int_storage = some [42] ∧
    c2src.int_storage = some [42] := by
  refine ⟨by decide, by decide, by decide, by decide, by decide, by decide,
          by decide, by decide, by decide⟩

end Dbpp
